import Mathlib

/-!
# Textflow ledger and settlement model

A shallow embedding of the Textflow demo application's settlement layer,
translated from the two persistence variants in the repository:

* `MockDB` — the local-storage variant (`src/unnamed/part_003`), an
  in-memory array store mutated synchronously;
* `DBService` — the hosted-backend variant (`src/services/mockDb.ts`),
  whose row-level store operations are embedded as total list
  transformations (insert appends a row, update-by-id maps over matching
  rows, select-single succeeds exactly when one row matches).

JavaScript numbers carrying money amounts and counters are embedded as
rationals (`ℚ`) and integers (`ℤ`); `Math.floor` becomes `Int.floor`.
Operations that can `throw` return `Except (String × σ) σ`, the error
carrying the state at throw time, so that partial writes before a throw
remain observable.
-/

namespace Textflow

/-- User roles, from `types` (`UserRole`). -/
inductive UserRole where
  | USER
  | ADMIN
deriving DecidableEq

/-- Transaction kinds, from the `type` column of `transactions`. -/
inductive TxType where
  | DEPOSIT
  | WITHDRAW
  | AD_SPEND
deriving DecidableEq

/-- Transaction statuses, from the `status` column of `transactions`. -/
inductive TxStatus where
  | PENDING
  | COMPLETED
  | REJECTED
deriving DecidableEq

/-- The three fixed reaction categories of `reactToPost`. -/
inductive Reaction where
  | likes
  | hearts
  | hahas
deriving DecidableEq

/-- A user record of the local-storage variant (`MockDB.users` entries).
`password` is optional exactly as in the TS `User` type. -/
structure User where
  id : String
  email : String
  password : Option String := none
  role : UserRole := UserRole.USER
  balance : ℚ := 0
  name : String := ""
deriving DecidableEq

/-- A row of the `profiles` table in the hosted-backend variant. -/
structure Profile where
  id : String
  email : String := ""
  role : UserRole := UserRole.USER
  balance : ℚ := 0
  name : String := ""
deriving DecidableEq

/-- A post record: content plus engagement counters. -/
structure Post where
  id : String
  userId : String
  content : String := ""
  views : ℤ := 0
  sponsored : Bool := false
  likes : ℤ := 0
  hearts : ℤ := 0
  hahas : ℤ := 0
deriving DecidableEq

/-- A ledger transaction record. -/
structure Transaction where
  id : String
  userId : String
  type : TxType
  amount : ℚ
  status : TxStatus
  network : Option String := none
  txHash : Option String := none
  postId : Option String := none
deriving DecidableEq

/-- The pricing-settings singleton (`SystemSettings`). -/
structure SystemSettings where
  adCostPer100kViews : ℚ := 1/10
  minWithdraw : ℚ := 50
deriving DecidableEq

/-- Read the named reaction counter of a post. -/
def Post.reactionCount (p : Post) : Reaction → ℤ
  | Reaction.likes => p.likes
  | Reaction.hearts => p.hearts
  | Reaction.hahas => p.hahas

/-- Increment the named reaction counter of a post (`post[reaction]++`). -/
def Post.incReaction (p : Post) : Reaction → Post
  | Reaction.likes => { p with likes := p.likes + 1 }
  | Reaction.hearts => { p with hearts := p.hearts + 1 }
  | Reaction.hahas => { p with hahas := p.hahas + 1 }

/-- Overwrite the named reaction counter of a post
(`update({ [reaction]: newVal })`). -/
def Post.setReaction (p : Post) (r : Reaction) (v : ℤ) : Post :=
  match r with
  | Reaction.likes => { p with likes := v }
  | Reaction.hearts => { p with hearts := v }
  | Reaction.hahas => { p with hahas := v }

/-- Replace the first element satisfying `p` by its image under `f`;
this embeds the JS idiom `const x = arr.find(...)` followed by mutation
of the found object in place. -/
def updateFirst (p : α → Bool) (f : α → α) : List α → List α
  | [] => []
  | x :: xs => if p x then f x :: xs else x :: updateFirst p f xs

/-- Apply `f` to every element satisfying `p`; this embeds a store
`update ... eq(col, v)` call, which updates all matching rows. -/
def updateAll (p : α → Bool) (f : α → α) (l : List α) : List α :=
  l.map (fun x => if p x then f x else x)

/-- Embeds `select ... eq(col, v) .single()`: succeeds exactly when one
row matches. -/
def selectSingle (p : α → Bool) (l : List α) : Option α :=
  match l.filter p with
  | [a] => some a
  | _ => none

/-- Result of an operation on state `σ` that may throw: the error case
carries the message and the state at throw time, so writes done before
the throw stay visible. -/
abbrev OpResult (σ : Type) := Except (String × σ) σ

namespace MockDB

/-- The whole local-storage store of the `MockDB` class: the three
serialized arrays plus the settings singleton. -/
structure State where
  users : List User
  posts : List Post
  transactions : List Transaction
  settings : SystemSettings
deriving DecidableEq

/-- `MockDB.signIn`: find the user by email; missing user throws; a
truthy stored password differing from the supplied one throws; otherwise
the user is returned. JS truthiness makes an empty-string stored
password behave like an absent one. -/
def signIn (m : State) (email password : String) : Except String User :=
  match m.users.find? (fun u => u.email == email) with
  | none => Except.error ("User not found")
  | some user =>
    match user.password with
    | some stored =>
      if stored != "" && stored != password then
        Except.error ("Invalid password")
      else
        Except.ok user
    | none => Except.ok user

/-- `MockDB.reactToPost`: if the post is found, increment the named
counter of that (first-found) post; otherwise do nothing. -/
def reactToPost (m : State) (postId : String) (reaction : Reaction) : State :=
  match m.posts.find? (fun p => p.id == postId) with
  | none => m
  | some _ =>
    { m with posts := updateFirst (fun p => p.id == postId) (fun p => p.incReaction reaction) m.posts }

/-- The immediate view boost of `MockDB.sponsorPost`:
`estimatedViews = floor((amount / adCostPer100kViews) * 100000)`, of
which 10% (floored) is added at once. -/
def sponsorBoost (settings : SystemSettings) (amount : ℚ) : ℤ :=
  let estimatedViews : ℤ := Int.floor ((amount / settings.adCostPer100kViews) * 100000)
  Int.floor ((estimatedViews : ℚ) * (1/10))

/-- `MockDB.sponsorPost`: looks up the post, then the account owning the
post (`users.find(u => u.id === post?.userId)`); silently no-ops when
either is missing; throws on insufficient balance; otherwise debits that
account, marks the post sponsored, adds the immediate view boost, and
appends a COMPLETED AD_SPEND transaction referencing the post.
`freshId` stands for the random transaction id. -/
def sponsorPost (m : State) (postId : String) (amount : ℚ) (freshId : String) : OpResult State :=
  match m.posts.find? (fun p => p.id == postId) with
  | none => Except.ok m
  | some post =>
    match m.users.find? (fun u => u.id == post.userId) with
    | none => Except.ok m
    | some user =>
      if user.balance < amount then
        Except.error ("Insufficient balance", m)
      else
        let boost := sponsorBoost m.settings amount
        Except.ok
          { m with
            users := updateFirst (fun u => u.id == post.userId)
              (fun u => { u with balance := u.balance - amount }) m.users
            posts := updateFirst (fun p => p.id == postId)
              (fun p => { p with sponsored := true, views := p.views + boost }) m.posts
            transactions := m.transactions ++
              [{ id := freshId, userId := user.id, type := TxType.AD_SPEND,
                 amount := amount, status := TxStatus.COMPLETED, postId := some postId }] }

/-- `MockDB.deposit`: silently returns when the account is unknown;
otherwise credits the balance and appends a COMPLETED DEPOSIT
transaction. `freshId` and `hash` stand for the random id / tx hash. -/
def deposit (m : State) (userId : String) (amount : ℚ) (network : Option String)
    (freshId : String) (hash : String) : OpResult State :=
  match m.users.find? (fun u => u.id == userId) with
  | none => Except.ok m
  | some _ =>
    Except.ok
      { m with
        users := updateFirst (fun u => u.id == userId)
          (fun u => { u with balance := u.balance + amount }) m.users
        transactions := m.transactions ++
          [{ id := freshId, userId := userId, type := TxType.DEPOSIT,
             amount := amount, status := TxStatus.COMPLETED,
             network := network, txHash := some hash }] }

/-- `MockDB.requestWithdraw`: throws on unknown account, insufficient
balance, or amount below the configured minimum; otherwise debits the
balance immediately and appends a PENDING WITHDRAW transaction. -/
def requestWithdraw (m : State) (userId : String) (amount : ℚ) (network : Option String)
    (freshId : String) : OpResult State :=
  match m.users.find? (fun u => u.id == userId) with
  | none => Except.error ("User not found", m)
  | some user =>
    if user.balance < amount then
      Except.error ("Insufficient balance", m)
    else if amount < m.settings.minWithdraw then
      Except.error ("Minimum withdraw not met", m)
    else
      Except.ok
        { m with
          users := updateFirst (fun u => u.id == userId)
            (fun u => { u with balance := u.balance - amount }) m.users
          transactions := m.transactions ++
            [{ id := freshId, userId := userId, type := TxType.WITHDRAW,
               amount := amount, status := TxStatus.PENDING, network := network }] }

/-- `MockDB.processWithdrawal`: silently returns when the transaction is
unknown; otherwise flips its status to COMPLETED or REJECTED and, on
rejection, credits the transaction's amount back to its account when
that account exists. -/
def processWithdrawal (m : State) (txId : String) (approved : Bool) : OpResult State :=
  match m.transactions.find? (fun t => t.id == txId) with
  | none => Except.ok m
  | some tx =>
    let newStatus := if approved then TxStatus.COMPLETED else TxStatus.REJECTED
    let m1 : State :=
      { m with
        transactions := updateFirst (fun t => t.id == txId)
          (fun t => { t with status := newStatus }) m.transactions }
    if approved then
      Except.ok m1
    else
      match m1.users.find? (fun u => u.id == tx.userId) with
      | none => Except.ok m1
      | some _ =>
        Except.ok
          { m1 with
            users := updateFirst (fun u => u.id == tx.userId)
              (fun u => { u with balance := u.balance + tx.amount }) m1.users }

/-- The (first-found) balance of an account, if the account exists. -/
def balanceOf (m : State) (userId : String) : Option ℚ :=
  (m.users.find? (fun u => u.id == userId)).map (fun u => u.balance)

/-- `reactToPost` performed `n` times sequentially with the same
reaction kind (the no-concurrency reading of repeated reactions). -/
def reactN (m : State) (postId : String) (r : Reaction) : ℕ → State
  | 0 => m
  | n + 1 => reactToPost (reactN m postId r n) postId r

end MockDB

namespace DBService

/-- The abstract hosted store reached through the client library: the
three tables, the authenticated session user, and the in-memory settings
singleton of the `DBService` class. -/
structure State where
  profiles : List Profile
  posts : List Post
  transactions : List Transaction
  authUser : Option String
  settings : SystemSettings
deriving DecidableEq

/-- `DBService.getUserProfile`: `select * eq(id) single`; when that
fails (no or several rows) a partial record with balance 0 is returned
instead of an error. -/
def getUserProfile (s : State) (userId : String) : Profile :=
  match selectSingle (fun p : Profile => p.id == userId) s.profiles with
  | some pr => pr
  | none => { id := userId, balance := 0 }

/-- Balance as seen by the settlement operations. -/
def profileBalance (s : State) (userId : String) : ℚ :=
  (getUserProfile s userId).balance

/-- `DBService.reactToPost`: read the counter of the (single) matching
post, then write back the incremented value; nothing happens when the
single-row read fails. -/
def reactToPost (s : State) (postId : String) (reaction : Reaction) : State :=
  match selectSingle (fun p : Post => p.id == postId) s.posts with
  | none => s
  | some p =>
    let newVal := p.reactionCount reaction + 1
    { s with
      posts := updateAll (fun q => q.id == postId)
        (fun q => q.setReaction reaction newVal) s.posts }

/-- The immediate view boost of `DBService.sponsorPost`:
`estimatedViews = floor((amount / adCostPer100kViews) * 100000)` and
`boost = floor(estimatedViews * 0.1)`. -/
def sponsorBoost (settings : SystemSettings) (amount : ℚ) : ℤ :=
  let estimatedViews : ℤ := Int.floor ((amount / settings.adCostPer100kViews) * 100000)
  Int.floor ((estimatedViews : ℚ) * (1/10))

/-- `DBService.sponsorPost`: requires a session user; throws on
insufficient balance before any write; then inserts a COMPLETED
AD_SPEND transaction referencing the post, debits the session user's
balance, and marks the post sponsored while adding the view boost (the
post update touches rows matching the post id, so an unknown post id
updates nothing, silently). -/
def sponsorPost (s : State) (postId : String) (amount : ℚ) (freshId : String) : OpResult State :=
  match s.authUser with
  | none => Except.error ("Not logged in", s)
  | some uid =>
    let profile := getUserProfile s uid
    if profile.balance < amount then
      Except.error ("Insufficient balance", s)
    else
      let s1 : State :=
        { s with
          transactions := s.transactions ++
            [{ id := freshId, userId := uid, type := TxType.AD_SPEND,
               amount := amount, status := TxStatus.COMPLETED, postId := some postId }] }
      let s2 : State :=
        { s1 with
          profiles := updateAll (fun p => p.id == uid)
            (fun p => { p with balance := profile.balance - amount }) s1.profiles }
      let boost := sponsorBoost s.settings amount
      let currentViews :=
        match selectSingle (fun p : Post => p.id == postId) s2.posts with
        | some p => p.views
        | none => 0
      Except.ok
        { s2 with
          posts := updateAll (fun p => p.id == postId)
            (fun p => { p with sponsored := true, views := currentViews + boost }) s2.posts }

/-- `DBService.deposit`: first inserts a COMPLETED DEPOSIT transaction,
then reads the profile and writes the increased balance. -/
def deposit (s : State) (userId : String) (amount : ℚ) (network : Option String)
    (freshId : String) (hash : String) : OpResult State :=
  let s1 : State :=
    { s with
      transactions := s.transactions ++
        [{ id := freshId, userId := userId, type := TxType.DEPOSIT,
           amount := amount, status := TxStatus.COMPLETED,
           network := network, txHash := some hash }] }
  let profile := getUserProfile s1 userId
  Except.ok
    { s1 with
      profiles := updateAll (fun p => p.id == userId)
        (fun p => { p with balance := profile.balance + amount }) s1.profiles }

/-- `DBService.requestWithdraw`: throws on insufficient balance (reading
the profile through `getUserProfile`, so an unknown account reads
balance 0); otherwise writes the decreased balance immediately and then
inserts a PENDING WITHDRAW transaction. -/
def requestWithdraw (s : State) (userId : String) (amount : ℚ) (network : Option String)
    (freshId : String) : OpResult State :=
  let profile := getUserProfile s userId
  if profile.balance < amount then
    Except.error ("Insufficient balance", s)
  else
    let s1 : State :=
      { s with
        profiles := updateAll (fun p => p.id == userId)
          (fun p => { p with balance := profile.balance - amount }) s.profiles }
    Except.ok
      { s1 with
        transactions := s1.transactions ++
          [{ id := freshId, userId := userId, type := TxType.WITHDRAW,
             amount := amount, status := TxStatus.PENDING, network := network }] }

/-- `DBService.processWithdrawal`: sets the status of the matching
transaction rows, then on rejection re-reads the (single) transaction
and credits its amount back onto its account's current balance. -/
def processWithdrawal (s : State) (txId : String) (approved : Bool) : OpResult State :=
  let newStatus := if approved then TxStatus.COMPLETED else TxStatus.REJECTED
  let s1 : State :=
    { s with
      transactions := updateAll (fun t => t.id == txId)
        (fun t => { t with status := newStatus }) s.transactions }
  if approved then
    Except.ok s1
  else
    match selectSingle (fun t : Transaction => t.id == txId) s1.transactions with
    | none => Except.ok s1
    | some tx =>
      let profile := getUserProfile s1 tx.userId
      Except.ok
        { s1 with
          profiles := updateAll (fun p => p.id == tx.userId)
            (fun p => { p with balance := profile.balance + tx.amount }) s1.profiles }

/-- `reactToPost` performed `n` times sequentially with the same
reaction kind. -/
def reactN (s : State) (postId : String) (r : Reaction) : ℕ → State
  | 0 => s
  | n + 1 => reactToPost (reactN s postId r n) postId r

end DBService

namespace MockDB

/-- Sum of the amounts of the transactions satisfying `q`. -/
def sumFilterAmount (q : Transaction → Bool) (ts : List Transaction) : ℚ :=
  ((ts.filter q).map (fun t => t.amount)).sum

/-- Is `t` a COMPLETED DEPOSIT of account `uid`? -/
def isCompletedDeposit (uid : String) (t : Transaction) : Bool :=
  t.userId == uid && t.type == TxType.DEPOSIT && t.status == TxStatus.COMPLETED

/-- Is `t` a COMPLETED WITHDRAW of account `uid`? -/
def isCompletedWithdraw (uid : String) (t : Transaction) : Bool :=
  t.userId == uid && t.type == TxType.WITHDRAW && t.status == TxStatus.COMPLETED

/-- Is `t` a PENDING WITHDRAW of account `uid`? -/
def isPendingWithdraw (uid : String) (t : Transaction) : Bool :=
  t.userId == uid && t.type == TxType.WITHDRAW && t.status == TxStatus.PENDING

/-- Is `t` an AD_SPEND of account `uid` (any status)? -/
def isAdSpend (uid : String) (t : Transaction) : Bool :=
  t.userId == uid && t.type == TxType.AD_SPEND

/-- The spec's stated net: completed deposits minus completed
withdrawals minus ad-spend. -/
def netCompleted (m : State) (uid : String) : ℚ :=
  sumFilterAmount (isCompletedDeposit uid) m.transactions
    - sumFilterAmount (isCompletedWithdraw uid) m.transactions
    - sumFilterAmount (isAdSpend uid) m.transactions

/-- The net that additionally debits pending withdrawals (whose funds
are already held back from the balance at request time). -/
def netLedger (m : State) (uid : String) : ℚ :=
  netCompleted m uid - sumFilterAmount (isPendingWithdraw uid) m.transactions

/-- The ledger invariant that actually holds: every account's balance
equals its net of completed deposits minus pending-or-completed
withdrawals minus ad-spend. -/
def LedgerInv (m : State) : Prop :=
  ∀ (uid : String) (u : User), m.users.find? (fun v => v.id == uid) = some u →
    u.balance = netLedger m uid

/-- The state an operation left behind, whether it returned or threw. -/
def resultState : OpResult State → State
  | Except.ok s => s
  | Except.error (_, s) => s

/-- The signed contribution of one transaction to the
pending-withdrawal-aware net of account `uid`. -/
def txNet (uid : String) (t : Transaction) : ℚ :=
  (if isCompletedDeposit uid t then t.amount else 0)
    - (if isCompletedWithdraw uid t then t.amount else 0)
    - (if isAdSpend uid t then t.amount else 0)
    - (if isPendingWithdraw uid t then t.amount else 0)

/-- A small concrete store used to evaluate the model on explicit
inputs: one ordinary account with a fresh balance of zero. -/
def exLedger0 : State :=
  { users := [{ id := "u1", email := "a@x" }]
    posts := []
    transactions := []
    settings := {} }

/-- `exLedger0` after a deposit of 100 (transaction id t1), written as
an explicit literal store. -/
def exLedger1 : State :=
  { users := [{ id := "u1", email := "a@x", balance := 100 }]
    posts := []
    transactions :=
      [{ id := "t1", userId := "u1", type := TxType.DEPOSIT, amount := 100,
         status := TxStatus.COMPLETED, txHash := some "h1" }]
    settings := {} }

/-- `exLedger1` after a withdrawal request of 50 (transaction id t2),
still pending, written as an explicit literal store. -/
def exLedger2 : State :=
  { users := [{ id := "u1", email := "a@x", balance := 50 }]
    posts := []
    transactions :=
      [{ id := "t1", userId := "u1", type := TxType.DEPOSIT, amount := 100,
         status := TxStatus.COMPLETED, txHash := some "h1" },
       { id := "t2", userId := "u1", type := TxType.WITHDRAW, amount := 50,
         status := TxStatus.PENDING }]
    settings := {} }

/-- A concrete local store with one password-protected account holding
100 and no transactions, matching the spec's withdrawal scenario. -/
def exStart2 : State :=
  { users := [{ id := "u1", email := "a@x", password := some "pw", balance := 100 }]
    posts := []
    transactions := []
    settings := {} }

/-- A concrete store exercising the unknown-id and sign-in paths: a
password-protected account, a password-less account, an account whose
stored password is the empty string, one post, and one pending
withdrawal. -/
def exRich : State :=
  { users :=
      [{ id := "u1", email := "a@x", password := some "pw", balance := 100 },
       { id := "u2", email := "b@x" },
       { id := "u3", email := "c@x", password := some "" }]
    posts := [{ id := "p1", userId := "u1" }]
    transactions :=
      [{ id := "t9", userId := "u1", type := TxType.WITHDRAW, amount := 50,
         status := TxStatus.PENDING }]
    settings := {} }

end MockDB

namespace Gemini

/-- Outcome of `JSON.parse` on the response text: it throws, yields an
array of strings, or yields a non-array value. -/
inductive ParseOutcome where
  | throws
  | array (xs : List String)
  | notArray
deriving DecidableEq

/-- Outcome of the `generateContent` call: it throws (network/API
failure) or returns a response whose `text` may be absent. -/
inductive ApiCallResult where
  | throws
  | returns (text : Option String) (parse : ParseOutcome)
deriving DecidableEq

/-- The environment observed by `generateSamplePosts`: whether an API
key credential is available, and what the external call does. -/
structure GenEnv where
  hasApiKey : Bool
  call : ApiCallResult
deriving DecidableEq

/-- The fallback returned when no API key credential is present. -/
def fallbackNoKey : List String :=
  ["Just learned about the new crypto regulations. Interesting times ahead! #crypto",
   "Who else is bullish on USDT stability? 🚀",
   "Check out this cool resource for React developers: https://react.dev"]

/-- The fallback returned by the catch-all error handler. -/
def fallbackOnError : List String :=
  ["System update: The new pay-per-view algorithm is live.",
   "Daily Reminder: Drink water and check your portfolio."]

/-- `generateSamplePosts`: missing credential returns `fallbackNoKey`;
a thrown call or a throwing `JSON.parse` is caught and returns
`fallbackOnError`; a falsy (absent or empty) response text returns the
empty list; a parsed non-array returns the empty list; otherwise the
parsed array is returned. -/
def generateSamplePosts (env : GenEnv) : List String :=
  if !env.hasApiKey then
    fallbackNoKey
  else
    match env.call with
    | ApiCallResult.throws => fallbackOnError
    | ApiCallResult.returns text parse =>
      match text with
      | none => []
      | some t =>
        if t == "" then []
        else
          match parse with
          | ParseOutcome.throws => fallbackOnError
          | ParseOutcome.array xs => xs
          | ParseOutcome.notArray => []

end Gemini

/-! ## Helper lemmas about the store primitives -/

theorem updateFirst_of_forall_neg {p : α → Bool} {f : α → α} :
    ∀ {l : List α}, (∀ x ∈ l, p x = false) → updateFirst p f l = l
  | [], _ => rfl
  | x :: xs, h => by
    have hx : p x = false := h x (List.mem_cons_self x xs)
    have ih := updateFirst_of_forall_neg (f := f)
      (fun y hy => h y (List.mem_cons_of_mem x hy))
    simp [updateFirst, hx, ih]

theorem updateFirst_append_left {p : α → Bool} {f : α → α} :
    ∀ {l₁ : List α} (l₂ : List α), (∀ x ∈ l₁, p x = false) →
      updateFirst p f (l₁ ++ l₂) = l₁ ++ updateFirst p f l₂
  | [], _, _ => rfl
  | x :: xs, l₂, h => by
    have hx : p x = false := h x (List.mem_cons_self x xs)
    have ih := updateFirst_append_left (f := f) l₂
      (fun y hy => h y (List.mem_cons_of_mem x hy))
    simp [updateFirst, hx, ih]

theorem find?_updateFirst_self {p : α → Bool} {f : α → α} {a : α} :
    ∀ {l : List α}, l.find? p = some a → p (f a) = true →
      (updateFirst p f l).find? p = some (f a)
  | [], h, _ => by simp at h
  | x :: xs, h, hfa => by
    cases hx : p x with
    | true =>
      rw [List.find?_cons_of_pos _ hx] at h
      injection h with h
      subst h
      simp [updateFirst, hx, List.find?_cons_of_pos _ hfa]
    | false =>
      rw [List.find?_cons_of_neg _ (by simp [hx])] at h
      have ih := find?_updateFirst_self h hfa
      simp only [updateFirst, hx]
      simp only [Bool.false_eq_true, if_false]
      rw [List.find?_cons_of_neg _ (by simp [hx])]
      exact ih

theorem find?_updateFirst_disjoint {p q : α → Bool} {f : α → α}
    (h1 : ∀ x, p x = true → q x = false) (h2 : ∀ x, p x = true → q (f x) = false) :
    ∀ (l : List α), (updateFirst p f l).find? q = l.find? q
  | [] => rfl
  | x :: xs => by
    cases hx : p x with
    | true =>
      simp only [updateFirst, hx, if_true]
      rw [List.find?_cons_of_neg _ (by simp [h2 x hx]),
        List.find?_cons_of_neg _ (by simp [h1 x hx])]
    | false =>
      simp only [updateFirst, hx, Bool.false_eq_true, if_false]
      cases hqx : q x with
      | true =>
        rw [List.find?_cons_of_pos _ hqx, List.find?_cons_of_pos _ hqx]
      | false =>
        rw [List.find?_cons_of_neg _ (by simp [hqx]),
          List.find?_cons_of_neg _ (by simp [hqx])]
        exact find?_updateFirst_disjoint h1 h2 xs

theorem sum_map_updateFirst {p : α → Bool} {f : α → α} {g : α → ℚ} {a : α} :
    ∀ {l : List α}, l.find? p = some a →
      ((updateFirst p f l).map g).sum = (l.map g).sum + (g (f a) - g a)
  | [], h => by simp at h
  | x :: xs, h => by
    cases hx : p x with
    | true =>
      rw [List.find?_cons_of_pos _ hx] at h
      injection h with h
      subst h
      simp only [updateFirst, hx, if_true, List.map_cons, List.sum_cons]
      ring
    | false =>
      rw [List.find?_cons_of_neg _ (by simp [hx])] at h
      have ih := sum_map_updateFirst (f := f) (g := g) h
      simp only [updateFirst, hx, Bool.false_eq_true, if_false, List.map_cons, List.sum_cons]
      rw [ih]
      ring

theorem filter_updateFirst_of_disjoint {p q : α → Bool} {f : α → α}
    (h1 : ∀ x, p x = true → q x = false) (h2 : ∀ x, p x = true → q (f x) = false) :
    ∀ (l : List α), (updateFirst p f l).filter q = l.filter q
  | [] => rfl
  | x :: xs => by
    cases hx : p x with
    | true =>
      simp only [updateFirst, hx, if_true]
      rw [List.filter_cons_of_neg (by simp [h2 x hx]),
        List.filter_cons_of_neg (by simp [h1 x hx])]
    | false =>
      simp only [updateFirst, hx, Bool.false_eq_true, if_false]
      rw [List.filter_cons, List.filter_cons]
      cases hqx : q x with
      | true => simp [hqx, filter_updateFirst_of_disjoint h1 h2 xs]
      | false => simp [hqx, filter_updateFirst_of_disjoint h1 h2 xs]

theorem updateAll_of_forall_neg {p : α → Bool} {f : α → α} {l : List α}
    (h : ∀ x ∈ l, p x = false) : updateAll p f l = l := by
  induction l with
  | nil => rfl
  | cons x xs ih =>
    have hx : p x = false := h x (List.mem_cons_self x xs)
    have ihx := ih fun y hy => h y (List.mem_cons_of_mem x hy)
    simp only [updateAll] at ihx ⊢
    simp [hx, ihx]

theorem updateAll_append {p : α → Bool} {f : α → α} (l₁ l₂ : List α) :
    updateAll p f (l₁ ++ l₂) = updateAll p f l₁ ++ updateAll p f l₂ :=
  List.map_append _ _ _

theorem filter_updateAll_preserved {p : α → Bool} {f : α → α}
    (hp : ∀ x, p (f x) = p x) :
    ∀ (l : List α), (updateAll p f l).filter p = (l.filter p).map f
  | [] => rfl
  | x :: xs => by
    have ih := filter_updateAll_preserved hp xs
    simp only [updateAll] at ih ⊢
    cases hx : p x with
    | true =>
      simp only [List.map_cons, hx, if_true]
      rw [List.filter_cons_of_pos (by rw [hp]; exact hx), List.filter_cons_of_pos hx]
      simp [ih]
    | false =>
      simp only [List.map_cons, hx, Bool.false_eq_true, if_false]
      rw [List.filter_cons_of_neg (by simp [hx]), List.filter_cons_of_neg (by simp [hx])]
      exact ih

theorem filter_updateAll_disjoint {p q : α → Bool} {f : α → α}
    (h1 : ∀ x, p x = true → q x = false) (h2 : ∀ x, p x = true → q (f x) = false) :
    ∀ (l : List α), (updateAll p f l).filter q = l.filter q
  | [] => rfl
  | x :: xs => by
    have ih := filter_updateAll_disjoint h1 h2 xs
    simp only [updateAll] at ih ⊢
    cases hx : p x with
    | true =>
      simp only [List.map_cons, hx, if_true]
      rw [List.filter_cons_of_neg (by simp [h2 x hx]),
        List.filter_cons_of_neg (by simp [h1 x hx])]
      exact ih
    | false =>
      simp only [List.map_cons, hx, Bool.false_eq_true, if_false]
      rw [List.filter_cons, List.filter_cons]
      cases hqx : q x with
      | true => simp [hqx, ih]
      | false => simp [hqx, ih]

theorem selectSingle_of_filter {p : α → Bool} {l : List α} {a : α}
    (h : l.filter p = [a]) : selectSingle p l = some a := by
  unfold selectSingle
  rw [h]

theorem find?_append_of_none {p : α → Bool} {l₁ l₂ : List α}
    (h : ∀ x ∈ l₁, p x = false) : (l₁ ++ l₂).find? p = l₂.find? p := by
  rw [List.find?_append, List.find?_eq_none.mpr (fun x hx => by simp [h x hx])]
  rfl

theorem filter_of_forall_neg {p : α → Bool} {l : List α}
    (h : ∀ x ∈ l, p x = false) : l.filter p = [] := by
  rw [List.filter_eq_nil_iff]
  intro a ha
  simp [h a ha]

/-! ## Claims -/

/-- Claim C1: a withdrawal request whose amount exceeds the account's
current balance fails with the insufficient-balance error and leaves the
store — hence the balance — unchanged, in both persistence variants; in
the local-storage variant a request whose amount is below the configured
minimum withdrawal (and not above the balance) also fails, likewise
leaving the store unchanged. -/
theorem C1_withdraw_insufficient_fails :
    (∀ (s : DBService.State) (uid : String) (amount : ℚ) (network : Option String)
        (fid : String),
      DBService.profileBalance s uid < amount →
        DBService.requestWithdraw s uid amount network fid =
          Except.error ("Insufficient balance", s)) ∧
    (∀ (m : MockDB.State) (uid : String) (amount : ℚ) (network : Option String)
        (fid : String) (u : User),
      m.users.find? (fun v => v.id == uid) = some u →
        (u.balance < amount →
          MockDB.requestWithdraw m uid amount network fid =
            Except.error ("Insufficient balance", m)) ∧
        (amount ≤ u.balance → amount < m.settings.minWithdraw →
          MockDB.requestWithdraw m uid amount network fid =
            Except.error ("Minimum withdraw not met", m))) := by
  constructor
  · intro s uid amount network fid h
    unfold DBService.profileBalance at h
    simp only [DBService.requestWithdraw]
    rw [if_pos h]
  · intro m uid amount network fid u hfind
    constructor
    · intro h
      simp only [MockDB.requestWithdraw, hfind]
      rw [if_pos h]
    · intro h1 h2
      simp only [MockDB.requestWithdraw, hfind]
      rw [if_neg (not_lt.mpr h1), if_pos h2]

/-- Witness for C1: in a hosted-store state whose only profile holds 10,
requesting 25 fails with the state intact, and in the local store
`exRich` whose account u1 holds 100, requesting 150 fails, as does
requesting 5 (below the default minimum of 50). -/
theorem C1_withdraw_insufficient_fails_witness :
    DBService.requestWithdraw
        { profiles := [{ id := "u1", balance := 10 }], posts := [], transactions := [],
          authUser := none, settings := {} } "u1" 25 none "t1" =
      Except.error ("Insufficient balance",
        { profiles := [{ id := "u1", balance := 10 }], posts := [], transactions := [],
          authUser := none, settings := {} }) ∧
    MockDB.requestWithdraw MockDB.exRich "u1" 150 none "t2" =
      Except.error ("Insufficient balance", MockDB.exRich) ∧
    MockDB.requestWithdraw MockDB.exRich "u1" 5 none "t2" =
      Except.error ("Minimum withdraw not met", MockDB.exRich) := by
  refine ⟨C1_withdraw_insufficient_fails.1 _ "u1" 25 none "t1" (by decide),
    (C1_withdraw_insufficient_fails.2 MockDB.exRich "u1" 150 none "t2"
      { id := "u1", email := "a@x", password := some "pw", balance := 100 } (by decide)).1
      (by decide),
    (C1_withdraw_insufficient_fails.2 MockDB.exRich "u1" 5 none "t2"
      { id := "u1", email := "a@x", password := some "pw", balance := 100 } (by decide)).2
      (by decide) (by decide)⟩

/-- Claim C3: a sponsorship call whose spend exceeds the sponsoring
user's current balance throws the insufficient-balance error with the
store unchanged, so the post's sponsored flag and view counter are
untouched, no balance is debited, and no ad-spend transaction is
appended. In the hosted variant the sponsoring user is the session
user; in the local variant it is the account owning the post. -/
theorem C3_sponsor_insufficient_fails :
    (∀ (s : DBService.State) (uid postId : String) (amount : ℚ) (fid : String),
      s.authUser = some uid →
      DBService.profileBalance s uid < amount →
        DBService.sponsorPost s postId amount fid =
          Except.error ("Insufficient balance", s)) ∧
    (∀ (m : MockDB.State) (postId : String) (amount : ℚ) (fid : String)
        (post : Post) (owner : User),
      m.posts.find? (fun p => p.id == postId) = some post →
      m.users.find? (fun u => u.id == post.userId) = some owner →
      owner.balance < amount →
        MockDB.sponsorPost m postId amount fid =
          Except.error ("Insufficient balance", m)) := by
  constructor
  · intro s uid postId amount fid hauth h
    unfold DBService.profileBalance at h
    simp only [DBService.sponsorPost, hauth]
    rw [if_pos h]
  · intro m postId amount fid post owner hpost howner h
    simp only [MockDB.sponsorPost, hpost, howner]
    rw [if_pos h]

/-- Witness for C3: with session user u1 holding 10, sponsoring post p1
for 40 fails in the hosted variant; in the local store `exRich`, whose
post p1 is owned by u1 holding 100, sponsoring for 500 fails. -/
theorem C3_sponsor_insufficient_fails_witness :
    DBService.sponsorPost
        { profiles := [{ id := "u1", balance := 10 }], posts := [{ id := "p1", userId := "u1" }],
          transactions := [], authUser := some "u1", settings := {} } "p1" 40 "t1" =
      Except.error ("Insufficient balance",
        { profiles := [{ id := "u1", balance := 10 }], posts := [{ id := "p1", userId := "u1" }],
          transactions := [], authUser := some "u1", settings := {} }) ∧
    MockDB.sponsorPost MockDB.exRich "p1" 500 "t1" =
      Except.error ("Insufficient balance", MockDB.exRich) := by
  refine ⟨C3_sponsor_insufficient_fails.1 _ "u1" "p1" 40 "t1" rfl (by decide),
    C3_sponsor_insufficient_fails.2 MockDB.exRich "p1" 500 "t1"
      { id := "p1", userId := "u1" }
      { id := "u1", email := "a@x", password := some "pw", balance := 100 }
      (by decide) (by decide) (by decide)⟩

/-- Counterexample to claim C8: in the local-storage variant, a deposit
to an unknown account id, a sponsorship of an unknown post id, and a
settlement of an unknown transaction id all return successfully with
the store unchanged — none of them surfaces a thrown not-found
failure. -/
theorem C8_counterexample :
    MockDB.deposit MockDB.exRich "nobody" 25 none "t1" "h1" = Except.ok MockDB.exRich ∧
    MockDB.sponsorPost MockDB.exRich "nopost" 25 "t1" = Except.ok MockDB.exRich ∧
    MockDB.processWithdrawal MockDB.exRich "notx" true = Except.ok MockDB.exRich := by
  refine ⟨?_, ?_, ?_⟩ <;> rfl

/-- Claim C8 (amended): in the local-storage variant, deposit with an
unknown account id, sponsorship with an unknown post id, and withdrawal
settlement with an unknown transaction id return successfully as silent
no-ops, leaving the store unchanged; only the withdrawal request throws
a not-found failure on an unknown account id. -/
theorem C8_unknown_id_silent_noop :
    (∀ (m : MockDB.State) (uid : String) (amount : ℚ) (network : Option String)
        (fid hash : String),
      m.users.find? (fun u => u.id == uid) = none →
        MockDB.deposit m uid amount network fid hash = Except.ok m) ∧
    (∀ (m : MockDB.State) (postId : String) (amount : ℚ) (fid : String),
      m.posts.find? (fun p => p.id == postId) = none →
        MockDB.sponsorPost m postId amount fid = Except.ok m) ∧
    (∀ (m : MockDB.State) (txId : String) (approved : Bool),
      m.transactions.find? (fun t => t.id == txId) = none →
        MockDB.processWithdrawal m txId approved = Except.ok m) ∧
    (∀ (m : MockDB.State) (uid : String) (amount : ℚ) (network : Option String)
        (fid : String),
      m.users.find? (fun u => u.id == uid) = none →
        MockDB.requestWithdraw m uid amount network fid =
          Except.error ("User not found", m)) := by
  refine ⟨?_, ?_, ?_, ?_⟩
  · intro m uid amount network fid hash hfind
    simp only [MockDB.deposit, hfind]
  · intro m postId amount fid hfind
    simp only [MockDB.sponsorPost, hfind]
  · intro m txId approved hfind
    simp only [MockDB.processWithdrawal, hfind]
  · intro m uid amount network fid hfind
    simp only [MockDB.requestWithdraw, hfind]

/-- Witness for the amended C8 at the concrete store `exRich` and
unknown identifiers. -/
theorem C8_unknown_id_silent_noop_witness :
    MockDB.deposit MockDB.exRich "nobody" 25 none "t1" "h1" = Except.ok MockDB.exRich ∧
    MockDB.sponsorPost MockDB.exRich "nopost" 25 "t1" = Except.ok MockDB.exRich ∧
    MockDB.processWithdrawal MockDB.exRich "notx" false = Except.ok MockDB.exRich ∧
    MockDB.requestWithdraw MockDB.exRich "nobody" 60 none "t1" =
      Except.error ("User not found", MockDB.exRich) :=
  ⟨C8_unknown_id_silent_noop.1 MockDB.exRich "nobody" 25 none "t1" "h1" (by decide),
   C8_unknown_id_silent_noop.2.1 MockDB.exRich "nopost" 25 "t1" (by decide),
   C8_unknown_id_silent_noop.2.2.1 MockDB.exRich "notx" false (by decide),
   C8_unknown_id_silent_noop.2.2.2 MockDB.exRich "nobody" 60 none "t1" (by decide)⟩

/-- Counterexample to claim C9: with a credential present, a call that
returns an empty response text — and likewise one whose parsed JSON is
not an array — makes `generateSamplePosts` return the empty list, not a
non-empty hardcoded fallback. -/
theorem C9_counterexample :
    Gemini.generateSamplePosts
        { hasApiKey := true,
          call := Gemini.ApiCallResult.returns (some "") (Gemini.ParseOutcome.array ["x"]) }
      = ([] : List String) ∧
    Gemini.generateSamplePosts
        { hasApiKey := true,
          call := Gemini.ApiCallResult.returns (some "7") Gemini.ParseOutcome.notArray }
      = ([] : List String) := by
  exact ⟨rfl, rfl⟩

/-- Claim C9 (amended): a missing credential returns the non-empty
hardcoded no-key fallback, and a thrown failure — network/API error, or
a response text that `JSON.parse` cannot parse — returns the non-empty
hardcoded error fallback; but a response whose text is absent or empty,
or whose parsed value is not an array, returns the empty list. -/
theorem C9_generate_fallbacks :
    (∀ (c : Gemini.ApiCallResult),
      Gemini.generateSamplePosts { hasApiKey := false, call := c } = Gemini.fallbackNoKey) ∧
    Gemini.generateSamplePosts
        { hasApiKey := true, call := Gemini.ApiCallResult.throws } = Gemini.fallbackOnError ∧
    (∀ (t : String), t ≠ "" →
      Gemini.generateSamplePosts
          { hasApiKey := true,
            call := Gemini.ApiCallResult.returns (some t) Gemini.ParseOutcome.throws }
        = Gemini.fallbackOnError) ∧
    (∀ (par : Gemini.ParseOutcome),
      Gemini.generateSamplePosts
          { hasApiKey := true, call := Gemini.ApiCallResult.returns none par }
        = ([] : List String)) ∧
    (∀ (par : Gemini.ParseOutcome),
      Gemini.generateSamplePosts
          { hasApiKey := true, call := Gemini.ApiCallResult.returns (some "") par }
        = ([] : List String)) ∧
    (∀ (t : String), t ≠ "" →
      Gemini.generateSamplePosts
          { hasApiKey := true,
            call := Gemini.ApiCallResult.returns (some t) Gemini.ParseOutcome.notArray }
        = ([] : List String)) ∧
    Gemini.fallbackNoKey ≠ ([] : List String) ∧
    Gemini.fallbackOnError ≠ ([] : List String) := by
  refine ⟨fun c => rfl, rfl, ?_, fun par => rfl, fun par => rfl, ?_, by decide, by decide⟩
  · intro t ht
    simp only [Gemini.generateSamplePosts, Bool.not_true, Bool.false_eq_true, if_false]
    rw [if_neg (by simpa using ht)]
  · intro t ht
    simp only [Gemini.generateSamplePosts, Bool.not_true, Bool.false_eq_true, if_false]
    rw [if_neg (by simpa using ht)]

/-- Witness for the amended C9 at a concrete unparseable-text input and
a concrete non-array input. -/
theorem C9_generate_fallbacks_witness :
    ("oops" : String) ≠ "" ∧
    Gemini.generateSamplePosts
        { hasApiKey := true,
          call := Gemini.ApiCallResult.returns (some "oops") Gemini.ParseOutcome.throws }
      = Gemini.fallbackOnError ∧
    Gemini.generateSamplePosts
        { hasApiKey := true,
          call := Gemini.ApiCallResult.returns (some "7") Gemini.ParseOutcome.notArray }
      = ([] : List String) :=
  ⟨by decide, C9_generate_fallbacks.2.2.1 "oops" (by decide),
    C9_generate_fallbacks.2.2.2.2.2.1 "7" (by decide)⟩

/-- Counterexample to claim C10: account u3 of `exRich` has a stored
password — the empty string — yet signing in with a different supplied
password succeeds instead of failing with the invalid-password error,
because the JS truthiness check skips falsy stored passwords. -/
theorem C10_counterexample :
    (MockDB.exRich.users.find? (fun u => u.email == "c@x")).map (fun u => u.password)
      = some (some "") ∧
    ("wrong" : String) ≠ "" ∧
    MockDB.signIn MockDB.exRich "c@x" "wrong" =
      Except.ok { id := "u3", email := "c@x", password := some "" } := by
  exact ⟨by decide, by decide, rfl⟩

/-- Claim C10 (amended): in the local-storage variant, signIn with the
email of a stored user whose password field is absent — or is the empty
string, which the JS truthiness test treats the same — succeeds and
returns that user for every supplied password; for a user with a
non-empty stored password, signIn succeeds when the supplied password
equals the stored one and fails with the invalid-password error when it
differs. -/
theorem C10_signin_password_check :
    ∀ (m : MockDB.State) (email pwd : String) (u : User),
      m.users.find? (fun v => v.email == email) = some u →
      ((u.password = none ∨ u.password = some "") →
        MockDB.signIn m email pwd = Except.ok u) ∧
      (∀ (p : String), u.password = some p → p ≠ "" →
        (pwd = p → MockDB.signIn m email pwd = Except.ok u) ∧
        (pwd ≠ p → MockDB.signIn m email pwd = Except.error ("Invalid password"))) := by
  intro m email pwd u hfind
  constructor
  · intro hcase
    rcases hcase with hnone | hempty
    · simp only [MockDB.signIn, hfind, hnone]
    · simp [MockDB.signIn, hfind, hempty]
  · intro p hp hpne
    constructor
    · intro heq
      subst heq
      simp [MockDB.signIn, hfind, hp]
    · intro hne
      simp only [MockDB.signIn, hfind, hp]
      rw [if_pos]
      simp only [Bool.and_eq_true, bne_iff_ne, ne_eq]
      exact ⟨hpne, fun h => hne h.symm⟩

/-- Witness for the amended C10 at the concrete store `exRich`: the
password-protected account u1 accepts its password and rejects another,
and the password-less account u2 accepts an arbitrary password. -/
theorem C10_signin_password_check_witness :
    MockDB.signIn MockDB.exRich "a@x" "pw" =
      Except.ok { id := "u1", email := "a@x", password := some "pw", balance := 100 } ∧
    MockDB.signIn MockDB.exRich "a@x" "bad" = Except.error ("Invalid password") ∧
    MockDB.signIn MockDB.exRich "b@x" "anything" =
      Except.ok { id := "u2", email := "b@x" } := by
  refine ⟨((C10_signin_password_check MockDB.exRich "a@x" "pw"
      { id := "u1", email := "a@x", password := some "pw", balance := 100 }
      (by decide)).2 "pw" rfl (by decide)).1 rfl,
    ((C10_signin_password_check MockDB.exRich "a@x" "bad"
      { id := "u1", email := "a@x", password := some "pw", balance := 100 }
      (by decide)).2 "pw" rfl (by decide)).2 (by decide),
    (C10_signin_password_check MockDB.exRich "b@x" "anything"
      { id := "u2", email := "b@x" } (by decide)).1 (Or.inl rfl)⟩

theorem incReaction_id (p : Post) (r : Reaction) : (p.incReaction r).id = p.id := by
  cases r <;> rfl

theorem incReaction_userId (p : Post) (r : Reaction) : (p.incReaction r).userId = p.userId := by
  cases r <;> rfl

theorem incReaction_views (p : Post) (r : Reaction) : (p.incReaction r).views = p.views := by
  cases r <;> rfl

theorem incReaction_sponsored (p : Post) (r : Reaction) :
    (p.incReaction r).sponsored = p.sponsored := by
  cases r <;> rfl

theorem reactionCount_incReaction_self (p : Post) (r : Reaction) :
    (p.incReaction r).reactionCount r = p.reactionCount r + 1 := by
  cases r <;> rfl

theorem reactionCount_incReaction_ne (p : Post) {r r' : Reaction} (h : r' ≠ r) :
    (p.incReaction r).reactionCount r' = p.reactionCount r' := by
  cases r <;> cases r' <;> first | rfl | exact absurd rfl h

theorem setReaction_id (p : Post) (r : Reaction) (v : ℤ) : (p.setReaction r v).id = p.id := by
  cases r <;> rfl

theorem setReaction_userId (p : Post) (r : Reaction) (v : ℤ) :
    (p.setReaction r v).userId = p.userId := by
  cases r <;> rfl

theorem setReaction_views (p : Post) (r : Reaction) (v : ℤ) :
    (p.setReaction r v).views = p.views := by
  cases r <;> rfl

theorem setReaction_sponsored (p : Post) (r : Reaction) (v : ℤ) :
    (p.setReaction r v).sponsored = p.sponsored := by
  cases r <;> rfl

theorem reactionCount_setReaction_self (p : Post) (r : Reaction) (v : ℤ) :
    (p.setReaction r v).reactionCount r = v := by
  cases r <;> rfl

theorem reactionCount_setReaction_ne (p : Post) (v : ℤ) {r r' : Reaction} (h : r' ≠ r) :
    (p.setReaction r v).reactionCount r' = p.reactionCount r' := by
  cases r <;> cases r' <;> first | rfl | exact absurd rfl h

/-- Claim C7, local-storage component: reacting `N` times sequentially
with the same kind to a post present in the store increments exactly
that counter of that post by `N`, leaving its other counters, views,
sponsored flag, id and owner unchanged, leaving every other post
unchanged, and leaving users, transactions and settings unchanged. -/
theorem C7_reactN_mock_aux (m : MockDB.State) (postId : String) (r : Reaction) (p : Post) (N : ℕ)
    (hfind : m.posts.find? (fun q => q.id == postId) = some p) :
    (∃ p', (MockDB.reactN m postId r N).posts.find? (fun q => q.id == postId) = some p'
      ∧ p'.reactionCount r = p.reactionCount r + N
      ∧ (∀ r', r' ≠ r → p'.reactionCount r' = p.reactionCount r')
      ∧ p'.views = p.views ∧ p'.sponsored = p.sponsored
      ∧ p'.id = p.id ∧ p'.userId = p.userId)
    ∧ (∀ k, k ≠ postId →
        (MockDB.reactN m postId r N).posts.find? (fun q => q.id == k) =
          m.posts.find? (fun q => q.id == k))
    ∧ (MockDB.reactN m postId r N).users = m.users
    ∧ (MockDB.reactN m postId r N).transactions = m.transactions
    ∧ (MockDB.reactN m postId r N).settings = m.settings := by
  induction N with
  | zero =>
    exact ⟨⟨p, hfind, by simp, fun r' _ => rfl, rfl, rfl, rfl, rfl⟩,
      fun k _ => rfl, rfl, rfl, rfl⟩
  | succ n ih =>
    obtain ⟨⟨p', hp', hcount, hother, hviews, hspons, hid, huid⟩, hposts, husers, htx, hsett⟩ := ih
    have hidmatch : (p'.id == postId) = true := by
      have := List.find?_some hp'
      simpa using this
    have hstep : MockDB.reactN m postId r (n + 1) =
        MockDB.reactToPost (MockDB.reactN m postId r n) postId r := rfl
    have hreact : MockDB.reactToPost (MockDB.reactN m postId r n) postId r =
        { MockDB.reactN m postId r n with
          posts := updateFirst (fun q => q.id == postId)
            (fun q => q.incReaction r) (MockDB.reactN m postId r n).posts } := by
      simp only [MockDB.reactToPost, hp']
    refine ⟨⟨p'.incReaction r, ?_, ?_, ?_, ?_, ?_, ?_, ?_⟩, ?_, ?_, ?_, ?_⟩
    · rw [hstep, hreact]
      exact find?_updateFirst_self hp' (by rw [incReaction_id]; exact hidmatch)
    · rw [reactionCount_incReaction_self, hcount]
      push_cast
      ring
    · intro r' hr'
      rw [reactionCount_incReaction_ne _ hr', hother r' hr']
    · rw [incReaction_views, hviews]
    · rw [incReaction_sponsored, hspons]
    · rw [incReaction_id, hid]
    · rw [incReaction_userId, huid]
    · intro k hk
      rw [hstep, hreact]
      have hdis := find?_updateFirst_disjoint
        (p := fun q : Post => q.id == postId) (q := fun q : Post => q.id == k)
        (f := fun q : Post => q.incReaction r)
        (fun x hx => by
          simp only [beq_iff_eq] at hx ⊢
          simp [hx, hk.symm])
        (fun x hx => by
          simp only [beq_iff_eq] at hx ⊢
          simp [incReaction_id, hx, hk.symm])
        (MockDB.reactN m postId r n).posts
      rw [hdis]
      exact hposts k hk
    · rw [hstep, hreact]; exact husers
    · rw [hstep, hreact]; exact htx
    · rw [hstep, hreact]; exact hsett

/-- Claim C7, hosted-backend component: with a unique row for the post,
the read-then-write increment iterated `N` times adds `N` to exactly
that counter, preserving the post's other fields, the other posts, and
the rest of the store. -/
theorem C7_reactN_db_aux (s : DBService.State) (postId : String) (r : Reaction) (p : Post) (N : ℕ)
    (hfilt : s.posts.filter (fun q => q.id == postId) = [p]) :
    (∃ p', (DBService.reactN s postId r N).posts.filter (fun q => q.id == postId) = [p']
      ∧ p'.reactionCount r = p.reactionCount r + N
      ∧ (∀ r', r' ≠ r → p'.reactionCount r' = p.reactionCount r')
      ∧ p'.views = p.views ∧ p'.sponsored = p.sponsored
      ∧ p'.id = p.id ∧ p'.userId = p.userId)
    ∧ (∀ k, k ≠ postId →
        (DBService.reactN s postId r N).posts.filter (fun q => q.id == k) =
          s.posts.filter (fun q => q.id == k))
    ∧ (DBService.reactN s postId r N).profiles = s.profiles
    ∧ (DBService.reactN s postId r N).transactions = s.transactions
    ∧ (DBService.reactN s postId r N).authUser = s.authUser
    ∧ (DBService.reactN s postId r N).settings = s.settings := by
  induction N with
  | zero =>
    exact ⟨⟨p, hfilt, by simp, fun r' _ => rfl, rfl, rfl, rfl, rfl⟩,
      fun k _ => rfl, rfl, rfl, rfl, rfl⟩
  | succ n ih =>
    obtain ⟨⟨p', hp', hcount, hother, hviews, hspons, hid, huid⟩,
      hposts, hprof, htx, hauth, hsett⟩ := ih
    have hstep : DBService.reactN s postId r (n + 1) =
        DBService.reactToPost (DBService.reactN s postId r n) postId r := rfl
    have hsel : selectSingle (fun q : Post => q.id == postId)
        (DBService.reactN s postId r n).posts = some p' := selectSingle_of_filter hp'
    have hreact : DBService.reactToPost (DBService.reactN s postId r n) postId r =
        { DBService.reactN s postId r n with
          posts := updateAll (fun q => q.id == postId)
            (fun q => q.setReaction r (p'.reactionCount r + 1))
            (DBService.reactN s postId r n).posts } := by
      simp only [DBService.reactToPost, hsel]
    refine ⟨⟨p'.setReaction r (p'.reactionCount r + 1), ?_, ?_, ?_, ?_, ?_, ?_, ?_⟩,
      ?_, ?_, ?_, ?_, ?_⟩
    · rw [hstep, hreact]
      have := filter_updateAll_preserved
        (p := fun q : Post => q.id == postId)
        (f := fun q : Post => q.setReaction r (p'.reactionCount r + 1))
        (fun x => by simp [setReaction_id])
        (DBService.reactN s postId r n).posts
      rw [this, hp']
      rfl
    · rw [reactionCount_setReaction_self, hcount]
      push_cast
      ring
    · intro r' hr'
      rw [reactionCount_setReaction_ne _ _ hr', hother r' hr']
    · rw [setReaction_views, hviews]
    · rw [setReaction_sponsored, hspons]
    · rw [setReaction_id, hid]
    · rw [setReaction_userId, huid]
    · intro k hk
      rw [hstep, hreact]
      have hdis := filter_updateAll_disjoint
        (p := fun q : Post => q.id == postId) (q := fun q : Post => q.id == k)
        (f := fun q : Post => q.setReaction r (p'.reactionCount r + 1))
        (fun x hx => by
          simp only [beq_iff_eq] at hx ⊢
          simp [hx, hk.symm])
        (fun x hx => by
          simp only [beq_iff_eq] at hx ⊢
          simp [setReaction_id, hx, hk.symm])
        (DBService.reactN s postId r n).posts
      rw [hdis]
      exact hposts k hk
    · rw [hstep, hreact]; exact hprof
    · rw [hstep, hreact]; exact htx
    · rw [hstep, hreact]; exact hauth
    · rw [hstep, hreact]; exact hsett

/-- Claim C7: in both persistence variants, performing the reaction
operation `N` times sequentially with one of the three fixed kinds
increases exactly that counter of exactly that post by `N`, leaving the
post's other counters, view count and sponsored flag, all other posts,
and the rest of the store unchanged. -/
theorem C7_react_n_times :
    (∀ (m : MockDB.State) (postId : String) (r : Reaction) (p : Post) (N : ℕ),
      m.posts.find? (fun q => q.id == postId) = some p →
      (∃ p', (MockDB.reactN m postId r N).posts.find? (fun q => q.id == postId) = some p'
        ∧ p'.reactionCount r = p.reactionCount r + N
        ∧ (∀ r', r' ≠ r → p'.reactionCount r' = p.reactionCount r')
        ∧ p'.views = p.views ∧ p'.sponsored = p.sponsored
        ∧ p'.id = p.id ∧ p'.userId = p.userId)
      ∧ (∀ k, k ≠ postId →
          (MockDB.reactN m postId r N).posts.find? (fun q => q.id == k) =
            m.posts.find? (fun q => q.id == k))
      ∧ (MockDB.reactN m postId r N).users = m.users
      ∧ (MockDB.reactN m postId r N).transactions = m.transactions
      ∧ (MockDB.reactN m postId r N).settings = m.settings) ∧
    (∀ (s : DBService.State) (postId : String) (r : Reaction) (p : Post) (N : ℕ),
      s.posts.filter (fun q => q.id == postId) = [p] →
      (∃ p', (DBService.reactN s postId r N).posts.filter (fun q => q.id == postId) = [p']
        ∧ p'.reactionCount r = p.reactionCount r + N
        ∧ (∀ r', r' ≠ r → p'.reactionCount r' = p.reactionCount r')
        ∧ p'.views = p.views ∧ p'.sponsored = p.sponsored
        ∧ p'.id = p.id ∧ p'.userId = p.userId)
      ∧ (∀ k, k ≠ postId →
          (DBService.reactN s postId r N).posts.filter (fun q => q.id == k) =
            s.posts.filter (fun q => q.id == k))
      ∧ (DBService.reactN s postId r N).profiles = s.profiles
      ∧ (DBService.reactN s postId r N).transactions = s.transactions
      ∧ (DBService.reactN s postId r N).authUser = s.authUser
      ∧ (DBService.reactN s postId r N).settings = s.settings) :=
  ⟨fun m postId r p N hfind => C7_reactN_mock_aux m postId r p N hfind,
   fun s postId r p N hfilt => C7_reactN_db_aux s postId r p N hfilt⟩

/-- Witness for C7: three likes on post p1 of the concrete store
`exRich`, and two hearts on the unique post p1 of a concrete hosted
store. -/
theorem C7_react_n_times_witness :
    (∃ p', (MockDB.reactN MockDB.exRich "p1" Reaction.likes 3).posts.find?
        (fun q => q.id == "p1") = some p'
      ∧ p'.reactionCount Reaction.likes =
          Post.reactionCount { id := "p1", userId := "u1" } Reaction.likes + 3
      ∧ (∀ r', r' ≠ Reaction.likes →
          p'.reactionCount r' = Post.reactionCount { id := "p1", userId := "u1" } r')
      ∧ p'.views = Post.views { id := "p1", userId := "u1" }
      ∧ p'.sponsored = Post.sponsored { id := "p1", userId := "u1" }
      ∧ p'.id = Post.id { id := "p1", userId := "u1" }
      ∧ p'.userId = Post.userId { id := "p1", userId := "u1" }) ∧
    (∃ p', (DBService.reactN
        { profiles := [], posts := [{ id := "p1", userId := "u1" }], transactions := [],
          authUser := none, settings := {} } "p1" Reaction.hearts 2).posts.filter
        (fun q => q.id == "p1") = [p']
      ∧ p'.reactionCount Reaction.hearts =
          Post.reactionCount { id := "p1", userId := "u1" } Reaction.hearts + 2
      ∧ (∀ r', r' ≠ Reaction.hearts →
          p'.reactionCount r' = Post.reactionCount { id := "p1", userId := "u1" } r')
      ∧ p'.views = Post.views { id := "p1", userId := "u1" }
      ∧ p'.sponsored = Post.sponsored { id := "p1", userId := "u1" }
      ∧ p'.id = Post.id { id := "p1", userId := "u1" }
      ∧ p'.userId = Post.userId { id := "p1", userId := "u1" }) :=
  ⟨(C7_react_n_times.1 MockDB.exRich "p1" Reaction.likes
      { id := "p1", userId := "u1" } 3 (by decide)).1,
   (C7_react_n_times.2
      { profiles := [], posts := [{ id := "p1", userId := "u1" }], transactions := [],
        authUser := none, settings := {} } "p1" Reaction.hearts
      { id := "p1", userId := "u1" } 2 (by decide)).1⟩

/-- Claim C5: a deposit of amount `A` to an existing account appends
exactly one new COMPLETED DEPOSIT transaction of amount `A` referencing
the account (the hosted variant inserts it before the balance write) and
raises the account's balance by exactly `A`, leaving other accounts,
posts and settings unchanged. -/
theorem C5_deposit_effect :
    (∀ (s : DBService.State) (uid : String) (amount : ℚ) (network : Option String)
        (fid hash : String) (pr : Profile),
      s.profiles.filter (fun q => q.id == uid) = [pr] →
      ∃ s', DBService.deposit s uid amount network fid hash = Except.ok s'
        ∧ s'.transactions = s.transactions ++
            [{ id := fid, userId := uid, type := TxType.DEPOSIT, amount := amount,
               status := TxStatus.COMPLETED, network := network, txHash := some hash }]
        ∧ s'.profiles.filter (fun q => q.id == uid) =
            [{ pr with balance := pr.balance + amount }]
        ∧ (∀ k, k ≠ uid → s'.profiles.filter (fun q => q.id == k) =
            s.profiles.filter (fun q => q.id == k))
        ∧ s'.posts = s.posts ∧ s'.authUser = s.authUser ∧ s'.settings = s.settings) ∧
    (∀ (m : MockDB.State) (uid : String) (amount : ℚ) (network : Option String)
        (fid hash : String) (u : User),
      m.users.find? (fun v => v.id == uid) = some u →
      ∃ m', MockDB.deposit m uid amount network fid hash = Except.ok m'
        ∧ m'.transactions = m.transactions ++
            [{ id := fid, userId := uid, type := TxType.DEPOSIT, amount := amount,
               status := TxStatus.COMPLETED, network := network, txHash := some hash }]
        ∧ m'.users.find? (fun v => v.id == uid) =
            some { u with balance := u.balance + amount }
        ∧ (∀ k, k ≠ uid → m'.users.find? (fun v => v.id == k) =
            m.users.find? (fun v => v.id == k))
        ∧ m'.posts = m.posts ∧ m'.settings = m.settings) := by
  constructor
  · intro s uid amount network fid hash pr hfilt
    have hsel : selectSingle (fun q : Profile => q.id == uid) s.profiles = some pr :=
      selectSingle_of_filter hfilt
    have hprofile : DBService.getUserProfile
        { s with transactions := s.transactions ++
            [{ id := fid, userId := uid, type := TxType.DEPOSIT, amount := amount,
               status := TxStatus.COMPLETED, network := network, txHash := some hash }] }
        uid = pr := by
      simp only [DBService.getUserProfile, hsel]
    refine ⟨_, rfl, rfl, ?_, ?_, rfl, rfl, rfl⟩
    · show (updateAll (fun q : Profile => q.id == uid) _ s.profiles).filter _ = _
      rw [filter_updateAll_preserved (fun x => by simp) s.profiles, hfilt]
      simp only [List.map_cons, List.map_nil, List.cons.injEq, and_true]
      rw [hprofile]
    · intro k hk
      show (updateAll (fun q : Profile => q.id == uid) _ s.profiles).filter _ = _
      exact filter_updateAll_disjoint
        (fun x hx => by
          simp only [beq_iff_eq] at hx ⊢
          simp [hx, hk.symm])
        (fun x hx => by
          simp only [beq_iff_eq] at hx ⊢
          simp [hx, hk.symm])
        s.profiles
  · intro m uid amount network fid hash u hfind
    have hpu : (u.id == uid) = true := by simpa using List.find?_some hfind
    refine ⟨{ m with
        users := updateFirst (fun v => v.id == uid)
          (fun v => { v with balance := v.balance + amount }) m.users,
        transactions := m.transactions ++
          [{ id := fid, userId := uid, type := TxType.DEPOSIT, amount := amount,
             status := TxStatus.COMPLETED, network := network, txHash := some hash }] },
      ?_, rfl, ?_, ?_, rfl, rfl⟩
    · simp only [MockDB.deposit, hfind]
    · show (updateFirst (fun v : User => v.id == uid) _ m.users).find? _ = _
      exact find?_updateFirst_self hfind (by simpa using hpu)
    · intro k hk
      show (updateFirst (fun v : User => v.id == uid) _ m.users).find? _ = _
      exact find?_updateFirst_disjoint
        (fun x hx => by
          simp only [beq_iff_eq] at hx ⊢
          simp [hx, hk.symm])
        (fun x hx => by
          simp only [beq_iff_eq] at hx ⊢
          simp [hx, hk.symm])
        m.users

/-- Witness for C5: a deposit of 7 to the account u1 (balance 5) of a
concrete hosted store, and to account u2 (balance 0) of the concrete
local store `exRich`. -/
theorem C5_deposit_effect_witness :
    (∃ s', DBService.deposit
        { profiles := [{ id := "u1", balance := 5 }], posts := [], transactions := [],
          authUser := none, settings := {} } "u1" 7 none "t1" "h1" = Except.ok s'
      ∧ s'.transactions = [] ++
          [{ id := "t1", userId := "u1", type := TxType.DEPOSIT, amount := 7,
             status := TxStatus.COMPLETED, network := none, txHash := some "h1" }]
      ∧ s'.profiles.filter (fun q => q.id == "u1") =
          [{ id := "u1", balance := Profile.balance { id := "u1", balance := 5 } + 7 }]
      ∧ (∀ k, k ≠ "u1" → s'.profiles.filter (fun q => q.id == k) =
          List.filter (fun q => q.id == k) [{ id := "u1", balance := 5 }])
      ∧ s'.posts = [] ∧ s'.authUser = none
      ∧ s'.settings = { }) ∧
    (∃ m', MockDB.deposit MockDB.exRich "u2" 7 none "t1" "h1" = Except.ok m'
      ∧ m'.transactions = MockDB.exRich.transactions ++
          [{ id := "t1", userId := "u2", type := TxType.DEPOSIT, amount := 7,
             status := TxStatus.COMPLETED, network := none, txHash := some "h1" }]
      ∧ m'.users.find? (fun v => v.id == "u2") =
          some { id := "u2", email := "b@x",
                 balance := User.balance { id := "u2", email := "b@x" } + 7 }
      ∧ (∀ k, k ≠ "u2" → m'.users.find? (fun v => v.id == k) =
          MockDB.exRich.users.find? (fun v => v.id == k))
      ∧ m'.posts = MockDB.exRich.posts ∧ m'.settings = MockDB.exRich.settings) :=
  ⟨C5_deposit_effect.1
      { profiles := [{ id := "u1", balance := 5 }], posts := [], transactions := [],
        authUser := none, settings := {} } "u1" 7 none "t1" "h1"
      { id := "u1", balance := 5 } (by decide),
   C5_deposit_effect.2 MockDB.exRich "u2" 7 none "t1" "h1"
      { id := "u2", email := "b@x" } (by decide)⟩

/-- Claim C4: a successful sponsorship call (spend not exceeding the
session user's balance) checks and debits the balance of the sponsoring
(calling) account — the session user — appends a COMPLETED AD_SPEND
transaction referencing the post for that same account, and sets the
post's sponsored flag to true, leaving all other accounts and posts
unchanged. -/
theorem C4_sponsor_success_effect :
    ∀ (s : DBService.State) (uid postId : String) (amount : ℚ) (fid : String) (pr : Profile),
      s.authUser = some uid →
      s.profiles.filter (fun q => q.id == uid) = [pr] →
      amount ≤ pr.balance →
      ∃ s', DBService.sponsorPost s postId amount fid = Except.ok s'
        ∧ s'.transactions = s.transactions ++
            [{ id := fid, userId := uid, type := TxType.AD_SPEND, amount := amount,
               status := TxStatus.COMPLETED, postId := some postId }]
        ∧ s'.profiles.filter (fun q => q.id == uid) =
            [{ pr with balance := pr.balance - amount }]
        ∧ (∀ k, k ≠ uid → s'.profiles.filter (fun q => q.id == k) =
            s.profiles.filter (fun q => q.id == k))
        ∧ (∀ p : Post, s.posts.filter (fun q => q.id == postId) = [p] →
            s'.posts.filter (fun q => q.id == postId) =
              [{ p with
                  sponsored := true,
                  views := p.views + DBService.sponsorBoost s.settings amount }])
        ∧ (∀ k, k ≠ postId → s'.posts.filter (fun q => q.id == k) =
            s.posts.filter (fun q => q.id == k))
        ∧ s'.authUser = s.authUser ∧ s'.settings = s.settings := by
  intro s uid postId amount fid pr hauth hfilt hle
  have hsel : selectSingle (fun q : Profile => q.id == uid) s.profiles = some pr :=
    selectSingle_of_filter hfilt
  have hgup : DBService.getUserProfile s uid = pr := by
    simp only [DBService.getUserProfile, hsel]
  have hnotlt : ¬ pr.balance < amount := not_lt.mpr hle
  have hrun : DBService.sponsorPost s postId amount fid = Except.ok
      { profiles := updateAll (fun q => q.id == uid)
          (fun q => { q with balance := pr.balance - amount }) s.profiles,
        posts := updateAll (fun q => q.id == postId)
          (fun q =>
            { q with
              sponsored := true,
              views := (match selectSingle (fun q : Post => q.id == postId) s.posts with
                        | some q => q.views
                        | none => 0) + DBService.sponsorBoost s.settings amount }) s.posts,
        transactions := s.transactions ++
          [{ id := fid, userId := uid, type := TxType.AD_SPEND, amount := amount,
             status := TxStatus.COMPLETED, postId := some postId }],
        authUser := s.authUser, settings := s.settings } := by
    simp only [DBService.sponsorPost, hauth, hgup]
    rw [if_neg hnotlt]
  refine ⟨_, hrun, rfl, ?_, ?_, ?_, ?_, rfl, rfl⟩
  · show (updateAll (fun q : Profile => q.id == uid) _ s.profiles).filter _ = _
    rw [filter_updateAll_preserved (fun x => by simp) s.profiles, hfilt]
    rfl
  · intro k hk
    show (updateAll (fun q : Profile => q.id == uid) _ s.profiles).filter _ = _
    exact filter_updateAll_disjoint
      (fun x hx => by
        simp only [beq_iff_eq] at hx ⊢
        simp [hx, hk.symm])
      (fun x hx => by
        simp only [beq_iff_eq] at hx ⊢
        simp [hx, hk.symm])
      s.profiles
  · intro p hpost
    show (updateAll (fun q : Post => q.id == postId) _ s.posts).filter _ = _
    rw [filter_updateAll_preserved (fun x => by simp) s.posts, hpost]
    simp only [List.map_cons, List.map_nil, List.cons.injEq, and_true]
    rw [selectSingle_of_filter hpost]
  · intro k hk
    show (updateAll (fun q : Post => q.id == postId) _ s.posts).filter _ = _
    exact filter_updateAll_disjoint
      (fun x hx => by
        simp only [beq_iff_eq] at hx ⊢
        simp [hx, hk.symm])
      (fun x hx => by
        simp only [beq_iff_eq] at hx ⊢
        simp [hx, hk.symm])
      s.posts

/-- Witness for C4: session user u1 with balance 10 sponsors post p1
for 2 in a concrete hosted store. -/
theorem C4_sponsor_success_effect_witness :
    ∃ s', DBService.sponsorPost
        { profiles := [{ id := "u1", balance := 10 }],
          posts := [{ id := "p1", userId := "u1" }], transactions := [],
          authUser := some "u1", settings := {} } "p1" 2 "t1" = Except.ok s'
      ∧ s'.transactions = [] ++
          [{ id := "t1", userId := "u1", type := TxType.AD_SPEND, amount := 2,
             status := TxStatus.COMPLETED, postId := some "p1" }]
      ∧ s'.profiles.filter (fun q => q.id == "u1") =
          [{ id := "u1", balance := Profile.balance { id := "u1", balance := 10 } - 2 }]
      ∧ (∀ k, k ≠ "u1" → s'.profiles.filter (fun q => q.id == k) =
          List.filter (fun q => q.id == k) [{ id := "u1", balance := 10 }])
      ∧ (∀ p : Post,
          List.filter (fun q => q.id == "p1") [{ id := "p1", userId := "u1" }] = [p] →
          s'.posts.filter (fun q => q.id == "p1") =
            [{ p with
                sponsored := true,
                views := p.views + DBService.sponsorBoost { } 2 }])
      ∧ (∀ k, k ≠ "p1" → s'.posts.filter (fun q => q.id == k) =
          List.filter (fun q => q.id == k) [{ id := "p1", userId := "u1" }])
      ∧ s'.authUser = some "u1" ∧ s'.settings = { } :=
  C4_sponsor_success_effect
    { profiles := [{ id := "u1", balance := 10 }],
      posts := [{ id := "p1", userId := "u1" }], transactions := [],
      authUser := some "u1", settings := {} } "u1" "p1" 2 "t1"
    { id := "u1", balance := 10 } rfl (by decide) (by decide)

/-- Claim C2, hosted-backend component: requesting a withdrawal of
`A ≤ balance` and then rejecting it restores the balance, with the
pending debit and single rejected transaction in between. -/
theorem C2_request_reject_db_aux (s : DBService.State) (uid fid : String)
    (network : Option String) (A : ℚ) (pr : Profile)
    (hfilt : s.profiles.filter (fun q => q.id == uid) = [pr])
    (hA : A ≤ pr.balance)
    (hfresh : ∀ t ∈ s.transactions, (t.id == fid) = false)
    (hnoW : ∀ t ∈ s.transactions, (t.userId == uid && t.type == TxType.WITHDRAW) = false) :
    ∃ s1 s2,
      DBService.requestWithdraw s uid A network fid = Except.ok s1
      ∧ s1.profiles.filter (fun q => q.id == uid) = [{ pr with balance := pr.balance - A }]
      ∧ s1.transactions = s.transactions ++
          [{ id := fid, userId := uid, type := TxType.WITHDRAW, amount := A,
             status := TxStatus.PENDING, network := network }]
      ∧ DBService.processWithdrawal s1 fid false = Except.ok s2
      ∧ s2.profiles.filter (fun q => q.id == uid) = [pr]
      ∧ s2.transactions = s.transactions ++
          [{ id := fid, userId := uid, type := TxType.WITHDRAW, amount := A,
             status := TxStatus.REJECTED, network := network }]
      ∧ s2.transactions.filter (fun t => t.userId == uid && t.type == TxType.WITHDRAW) =
          [{ id := fid, userId := uid, type := TxType.WITHDRAW, amount := A,
             status := TxStatus.REJECTED, network := network }] := by
  have hsel : selectSingle (fun q : Profile => q.id == uid) s.profiles = some pr :=
    selectSingle_of_filter hfilt
  have hgup : DBService.getUserProfile s uid = pr := by
    simp only [DBService.getUserProfile, hsel]
  have hnotlt : ¬ pr.balance < A := not_lt.mpr hA
  have hprof1 : (updateAll (fun q : Profile => q.id == uid)
      (fun q => { q with balance := pr.balance - A }) s.profiles).filter
        (fun q => q.id == uid) = [{ pr with balance := pr.balance - A }] := by
    rw [filter_updateAll_preserved (fun x => by simp) s.profiles, hfilt]
    rfl
  have hupd : updateAll (fun t : Transaction => t.id == fid)
      (fun t => { t with status := if false = true then TxStatus.COMPLETED
                                   else TxStatus.REJECTED })
      (s.transactions ++
        [{ id := fid, userId := uid, type := TxType.WITHDRAW, amount := A,
           status := TxStatus.PENDING, network := network }]) =
      s.transactions ++
        [{ id := fid, userId := uid, type := TxType.WITHDRAW, amount := A,
           status := TxStatus.REJECTED, network := network }] := by
    rw [updateAll_append, updateAll_of_forall_neg hfresh]
    simp [updateAll]
  have hselfid : selectSingle (fun t : Transaction => t.id == fid)
      (s.transactions ++
        [{ id := fid, userId := uid, type := TxType.WITHDRAW, amount := A,
           status := TxStatus.REJECTED, network := network }]) =
      some { id := fid, userId := uid, type := TxType.WITHDRAW, amount := A,
             status := TxStatus.REJECTED, network := network } := by
    apply selectSingle_of_filter
    rw [List.filter_append, filter_of_forall_neg hfresh]
    simp
  have hgup1 : DBService.getUserProfile
      { profiles := updateAll (fun q => q.id == uid)
          (fun q => { q with balance := pr.balance - A }) s.profiles,
        posts := s.posts,
        transactions := s.transactions ++
          [{ id := fid, userId := uid, type := TxType.WITHDRAW, amount := A,
             status := TxStatus.REJECTED, network := network }],
        authUser := s.authUser, settings := s.settings } uid =
      { pr with balance := pr.balance - A } := by
    simp only [DBService.getUserProfile, selectSingle_of_filter hprof1]
  refine ⟨{ s with
      profiles := updateAll (fun q => q.id == uid)
        (fun q => { q with balance := pr.balance - A }) s.profiles,
      transactions := s.transactions ++
        [{ id := fid, userId := uid, type := TxType.WITHDRAW, amount := A,
           status := TxStatus.PENDING, network := network }] },
    { profiles := updateAll (fun q => q.id == uid)
        (fun q => { q with balance := pr.balance - A + A })
        (updateAll (fun q => q.id == uid)
          (fun q => { q with balance := pr.balance - A }) s.profiles),
      posts := s.posts,
      transactions := s.transactions ++
        [{ id := fid, userId := uid, type := TxType.WITHDRAW, amount := A,
           status := TxStatus.REJECTED, network := network }],
      authUser := s.authUser, settings := s.settings },
    ?_, hprof1, rfl, ?_, ?_, rfl, ?_⟩
  · simp only [DBService.requestWithdraw, hgup]
    rw [if_neg hnotlt]
  · simp only [DBService.processWithdrawal, hupd, hselfid, hgup1]
    rw [if_neg (by simp)]
  · rw [filter_updateAll_preserved (fun x => by simp)
        (updateAll (fun q : Profile => q.id == uid)
          (fun q => { q with balance := pr.balance - A }) s.profiles), hprof1]
    have hb : pr.balance - A + A = pr.balance := by ring
    simp [hb]
  · rw [List.filter_append, filter_of_forall_neg hnoW]
    simp

/-- Claim C2, local-storage component: with the amount also meeting the
configured minimum (required for the request to go through in this
variant), request-then-reject restores the account record exactly. -/
theorem C2_request_reject_mock_aux (m : MockDB.State) (uid fid : String)
    (network : Option String) (A : ℚ) (u : User)
    (hfind : m.users.find? (fun v => v.id == uid) = some u)
    (hA : A ≤ u.balance)
    (hmin : m.settings.minWithdraw ≤ A)
    (hfresh : ∀ t ∈ m.transactions, (t.id == fid) = false)
    (hnoW : ∀ t ∈ m.transactions, (t.userId == uid && t.type == TxType.WITHDRAW) = false) :
    ∃ m1 m2,
      MockDB.requestWithdraw m uid A network fid = Except.ok m1
      ∧ m1.users.find? (fun v => v.id == uid) = some { u with balance := u.balance - A }
      ∧ m1.transactions = m.transactions ++
          [{ id := fid, userId := uid, type := TxType.WITHDRAW, amount := A,
             status := TxStatus.PENDING, network := network }]
      ∧ MockDB.processWithdrawal m1 fid false = Except.ok m2
      ∧ m2.users.find? (fun v => v.id == uid) = some u
      ∧ m2.transactions = m.transactions ++
          [{ id := fid, userId := uid, type := TxType.WITHDRAW, amount := A,
             status := TxStatus.REJECTED, network := network }]
      ∧ m2.transactions.filter (fun t => t.userId == uid && t.type == TxType.WITHDRAW) =
          [{ id := fid, userId := uid, type := TxType.WITHDRAW, amount := A,
             status := TxStatus.REJECTED, network := network }] := by
  have hpu : (u.id == uid) = true := by simpa using List.find?_some hfind
  have hfind1 : (updateFirst (fun v => v.id == uid)
      (fun v => { v with balance := v.balance - A }) m.users).find?
        (fun v => v.id == uid) = some { u with balance := u.balance - A } :=
    find?_updateFirst_self hfind (by simpa using hpu)
  have hfindtx : (m.transactions ++
      [({ id := fid, userId := uid, type := TxType.WITHDRAW, amount := A,
          status := TxStatus.PENDING, network := network } : Transaction)]).find?
        (fun t => t.id == fid) =
      some { id := fid, userId := uid, type := TxType.WITHDRAW, amount := A,
             status := TxStatus.PENDING, network := network } := by
    rw [find?_append_of_none hfresh]
    simp [List.find?]
  have hupdF : updateFirst (fun t : Transaction => t.id == fid)
      (fun t => { t with status := if false = true then TxStatus.COMPLETED
                                   else TxStatus.REJECTED })
      (m.transactions ++
        [{ id := fid, userId := uid, type := TxType.WITHDRAW, amount := A,
           status := TxStatus.PENDING, network := network }]) =
      m.transactions ++
        [{ id := fid, userId := uid, type := TxType.WITHDRAW, amount := A,
           status := TxStatus.REJECTED, network := network }] := by
    rw [updateFirst_append_left _ hfresh]
    simp [updateFirst]
  have hfind2 : (updateFirst (fun v => v.id == uid)
      (fun v => { v with balance := v.balance + A })
      (updateFirst (fun v => v.id == uid)
        (fun v => { v with balance := v.balance - A }) m.users)).find?
        (fun v => v.id == uid) = some u := by
    have hstep := find?_updateFirst_self (f := fun v => { v with balance := v.balance + A })
      hfind1 (by simpa using hpu)
    refine hstep.trans ?_
    have hb : u.balance - A + A = u.balance := by ring
    simp only [hb]
  refine ⟨{ m with
      users := updateFirst (fun v => v.id == uid)
        (fun v => { v with balance := v.balance - A }) m.users,
      transactions := m.transactions ++
        [{ id := fid, userId := uid, type := TxType.WITHDRAW, amount := A,
           status := TxStatus.PENDING, network := network }] },
    { users := updateFirst (fun v => v.id == uid)
        (fun v => { v with balance := v.balance + A })
        (updateFirst (fun v => v.id == uid)
          (fun v => { v with balance := v.balance - A }) m.users),
      posts := m.posts,
      transactions := m.transactions ++
        [{ id := fid, userId := uid, type := TxType.WITHDRAW, amount := A,
           status := TxStatus.REJECTED, network := network }],
      settings := m.settings },
    ?_, hfind1, rfl, ?_, hfind2, rfl, ?_⟩
  · simp only [MockDB.requestWithdraw, hfind]
    rw [if_neg (not_lt.mpr hA), if_neg (not_lt.mpr hmin)]
  · simp only [MockDB.processWithdrawal, hfindtx, hupdF]
    rw [if_neg (by simp)]
    simp only [hfind1]
  · rw [List.filter_append, filter_of_forall_neg hnoW]
    simp

/-- Claim C2: requesting a withdrawal of `A` (not exceeding the balance;
in the local variant also meeting the configured minimum, without which
the request itself fails) and then having the administrator reject it
restores the account's balance to its pre-request value; in between the
balance is lower by `A` and the transaction is PENDING, and afterwards
exactly one WITHDRAW transaction of amount `A` for the account exists,
with status REJECTED. -/
theorem C2_request_then_reject :
    (∀ (s : DBService.State) (uid fid : String) (network : Option String) (A : ℚ)
        (pr : Profile),
      s.profiles.filter (fun q => q.id == uid) = [pr] →
      A ≤ pr.balance →
      (∀ t ∈ s.transactions, (t.id == fid) = false) →
      (∀ t ∈ s.transactions, (t.userId == uid && t.type == TxType.WITHDRAW) = false) →
      ∃ s1 s2,
        DBService.requestWithdraw s uid A network fid = Except.ok s1
        ∧ s1.profiles.filter (fun q => q.id == uid) =
            [{ pr with balance := pr.balance - A }]
        ∧ s1.transactions = s.transactions ++
            [{ id := fid, userId := uid, type := TxType.WITHDRAW, amount := A,
               status := TxStatus.PENDING, network := network }]
        ∧ DBService.processWithdrawal s1 fid false = Except.ok s2
        ∧ s2.profiles.filter (fun q => q.id == uid) = [pr]
        ∧ s2.transactions = s.transactions ++
            [{ id := fid, userId := uid, type := TxType.WITHDRAW, amount := A,
               status := TxStatus.REJECTED, network := network }]
        ∧ s2.transactions.filter (fun t => t.userId == uid && t.type == TxType.WITHDRAW) =
            [{ id := fid, userId := uid, type := TxType.WITHDRAW, amount := A,
               status := TxStatus.REJECTED, network := network }]) ∧
    (∀ (m : MockDB.State) (uid fid : String) (network : Option String) (A : ℚ) (u : User),
      m.users.find? (fun v => v.id == uid) = some u →
      A ≤ u.balance →
      m.settings.minWithdraw ≤ A →
      (∀ t ∈ m.transactions, (t.id == fid) = false) →
      (∀ t ∈ m.transactions, (t.userId == uid && t.type == TxType.WITHDRAW) = false) →
      ∃ m1 m2,
        MockDB.requestWithdraw m uid A network fid = Except.ok m1
        ∧ m1.users.find? (fun v => v.id == uid) = some { u with balance := u.balance - A }
        ∧ m1.transactions = m.transactions ++
            [{ id := fid, userId := uid, type := TxType.WITHDRAW, amount := A,
               status := TxStatus.PENDING, network := network }]
        ∧ MockDB.processWithdrawal m1 fid false = Except.ok m2
        ∧ m2.users.find? (fun v => v.id == uid) = some u
        ∧ m2.transactions = m.transactions ++
            [{ id := fid, userId := uid, type := TxType.WITHDRAW, amount := A,
               status := TxStatus.REJECTED, network := network }]
        ∧ m2.transactions.filter (fun t => t.userId == uid && t.type == TxType.WITHDRAW) =
            [{ id := fid, userId := uid, type := TxType.WITHDRAW, amount := A,
               status := TxStatus.REJECTED, network := network }]) :=
  ⟨fun s uid fid network A pr hfilt hA hfresh hnoW =>
    C2_request_reject_db_aux s uid fid network A pr hfilt hA hfresh hnoW,
   fun m uid fid network A u hfind hA hmin hfresh hnoW =>
    C2_request_reject_mock_aux m uid fid network A u hfind hA hmin hfresh hnoW⟩

/-- Witness for C2: the spec's scenario — balance 100, withdraw 50,
reject — run in a concrete hosted store and in the concrete local store
`exRich` (whose account u1 holds 100 and minimum is 50; t9 is the
pre-existing pending withdrawal's id, so the fresh id t2 is used). -/
theorem C2_request_then_reject_witness :
    (∃ s1 s2,
      DBService.requestWithdraw
          { profiles := [{ id := "u1", balance := 100 }], posts := [], transactions := [],
            authUser := none, settings := {} } "u1" 50 none "t2" = Except.ok s1
      ∧ s1.profiles.filter (fun q => q.id == "u1") =
          [{ id := "u1",
             balance := Profile.balance { id := "u1", balance := 100 } - 50 }]
      ∧ s1.transactions = [] ++
          [{ id := "t2", userId := "u1", type := TxType.WITHDRAW, amount := 50,
             status := TxStatus.PENDING, network := none }]
      ∧ DBService.processWithdrawal s1 "t2" false = Except.ok s2
      ∧ s2.profiles.filter (fun q => q.id == "u1") = [{ id := "u1", balance := 100 }]
      ∧ s2.transactions = [] ++
          [{ id := "t2", userId := "u1", type := TxType.WITHDRAW, amount := 50,
             status := TxStatus.REJECTED, network := none }]
      ∧ s2.transactions.filter (fun t => t.userId == "u1" && t.type == TxType.WITHDRAW) =
          [{ id := "t2", userId := "u1", type := TxType.WITHDRAW, amount := 50,
             status := TxStatus.REJECTED, network := none }]) ∧
    (∃ m1 m2,
      MockDB.requestWithdraw MockDB.exStart2 "u1" 50 none "t2" = Except.ok m1
      ∧ m1.users.find? (fun v => v.id == "u1") =
          some { id := "u1", email := "a@x", password := some "pw", balance := 100 - 50 }
      ∧ m1.transactions = MockDB.exStart2.transactions ++
          [{ id := "t2", userId := "u1", type := TxType.WITHDRAW, amount := 50,
             status := TxStatus.PENDING, network := none }]
      ∧ MockDB.processWithdrawal m1 "t2" false = Except.ok m2
      ∧ m2.users.find? (fun v => v.id == "u1") =
          some { id := "u1", email := "a@x", password := some "pw", balance := 100 }
      ∧ m2.transactions = MockDB.exStart2.transactions ++
          [{ id := "t2", userId := "u1", type := TxType.WITHDRAW, amount := 50,
             status := TxStatus.REJECTED, network := none }]
      ∧ m2.transactions.filter (fun t => t.userId == "u1" && t.type == TxType.WITHDRAW) =
          [{ id := "t2", userId := "u1", type := TxType.WITHDRAW, amount := 50,
             status := TxStatus.REJECTED, network := none }]) :=
  ⟨C2_request_then_reject.1
      { profiles := [{ id := "u1", balance := 100 }], posts := [], transactions := [],
        authUser := none, settings := {} } "u1" "t2" none 50
      { id := "u1", balance := 100 } (by decide) (by decide) (by decide) (by decide),
   C2_request_then_reject.2 MockDB.exStart2 "u1" "t2" none 50
      { id := "u1", email := "a@x", password := some "pw", balance := 100 }
      (by decide) (by decide) (by decide) (by decide) (by decide)⟩

theorem sumFilterAmount_eq_map_sum (q : Transaction → Bool) (ts : List Transaction) :
    MockDB.sumFilterAmount q ts = (ts.map (fun t => if q t then t.amount else 0)).sum := by
  induction ts with
  | nil => rfl
  | cons t ts ih =>
    unfold MockDB.sumFilterAmount at ih ⊢
    rw [List.filter_cons]
    cases hq : q t with
    | true => simp [hq, ih]
    | false => simp [hq, ih]

theorem sumFilterAmount_append (q : Transaction → Bool) (ts : List Transaction)
    (t : Transaction) :
    MockDB.sumFilterAmount q (ts ++ [t]) =
      MockDB.sumFilterAmount q ts + (if q t then t.amount else 0) := by
  unfold MockDB.sumFilterAmount
  rw [List.filter_append, List.map_append, List.sum_append]
  cases hq : q t <;> simp [hq]

theorem sumFilterAmount_updateFirst {p : Transaction → Bool} {f : Transaction → Transaction}
    {ts : List Transaction} {a : Transaction} (h : ts.find? p = some a)
    (q : Transaction → Bool) :
    MockDB.sumFilterAmount q (updateFirst p f ts) =
      MockDB.sumFilterAmount q ts +
        ((if q (f a) then (f a).amount else 0) - (if q a then a.amount else 0)) := by
  rw [sumFilterAmount_eq_map_sum, sumFilterAmount_eq_map_sum, sum_map_updateFirst h]

theorem netLedger_append {m m' : MockDB.State} {t : Transaction}
    (husers : m'.transactions = m.transactions ++ [t]) (uid : String) :
    MockDB.netLedger m' uid = MockDB.netLedger m uid + MockDB.txNet uid t := by
  simp only [MockDB.netLedger, MockDB.netCompleted, MockDB.txNet, husers,
    sumFilterAmount_append]
  ring

theorem netLedger_updateFirst {m : MockDB.State} (m' : MockDB.State) {p : Transaction → Bool}
    {f : Transaction → Transaction} {a : Transaction}
    (hfind : m.transactions.find? p = some a)
    (htrans : m'.transactions = updateFirst p f m.transactions) (uid : String) :
    MockDB.netLedger m' uid = MockDB.netLedger m uid +
      (MockDB.txNet uid (f a) - MockDB.txNet uid a) := by
  simp only [MockDB.netLedger, MockDB.netCompleted, MockDB.txNet, htrans,
    sumFilterAmount_updateFirst hfind]
  ring

theorem txNet_of_ne {uid : String} {t : Transaction} (h : t.userId ≠ uid) :
    MockDB.txNet uid t = 0 := by
  have hb : (t.userId == uid) = false := by simp [h]
  simp [MockDB.txNet, MockDB.isCompletedDeposit, MockDB.isCompletedWithdraw,
    MockDB.isAdSpend, MockDB.isPendingWithdraw, hb]

/-- An account's invariant is preserved by debiting/crediting `δ` to
account `k` via `updateFirst` while appending one transaction whose net
contribution is `δ` for `k` and `0` for everyone else. -/
theorem LedgerInv_step (m : MockDB.State) (hInv : MockDB.LedgerInv m)
    (k : String) (u : User) (δ : ℚ) (t : Transaction)
    (hfind : m.users.find? (fun v => v.id == k) = some u)
    (hδ : MockDB.txNet k t = δ)
    (hother : ∀ uid, uid ≠ k → MockDB.txNet uid t = 0)
    (posts' : List Post) :
    MockDB.LedgerInv
      { users := updateFirst (fun v => v.id == k)
          (fun v => { v with balance := v.balance + δ }) m.users,
        posts := posts',
        transactions := m.transactions ++ [t],
        settings := m.settings } := by
  intro uid' u' hfind'
  have hpu : (u.id == k) = true := by simpa using List.find?_some hfind
  have hnet : MockDB.netLedger
      { users := updateFirst (fun v => v.id == k)
          (fun v => { v with balance := v.balance + δ }) m.users,
        posts := posts',
        transactions := m.transactions ++ [t],
        settings := m.settings } uid' = MockDB.netLedger m uid' + MockDB.txNet uid' t :=
    netLedger_append rfl uid'
  by_cases hk : uid' = k
  · subst hk
    rw [find?_updateFirst_self hfind (by simpa using hpu)] at hfind'
    injection hfind' with hfind'
    subst hfind'
    show u.balance + δ = _
    rw [hnet, hδ, hInv uid' u hfind]
  · rw [find?_updateFirst_disjoint
      (fun x hx => by
        simp only [beq_iff_eq] at hx ⊢
        simp [hx, Ne.symm hk])
      (fun x hx => by
        simp only [beq_iff_eq] at hx ⊢
        simp [hx, Ne.symm hk])
      m.users] at hfind'
    rw [hnet, hother uid' hk, add_zero]
    exact hInv uid' u' hfind'

/-- Claim C6 (amended): in the local-storage variant, the equality
"balance = completed deposits − (pending or completed) withdrawals −
ad-spend" — i.e. the spec's net with pending withdrawals also counted
as debits, since a request debits the balance while its transaction is
still PENDING — is preserved by each of the four settlement operations
(deposit, withdrawal request, settlement of a pending WITHDRAW
transaction, sponsorship), whether they return or throw. -/
theorem C6_ledger_invariant_preserved (m : MockDB.State) (hInv : MockDB.LedgerInv m) :
    (∀ (uid : String) (amount : ℚ) (network : Option String) (fid hash : String),
      MockDB.LedgerInv (MockDB.resultState (MockDB.deposit m uid amount network fid hash))) ∧
    (∀ (uid : String) (amount : ℚ) (network : Option String) (fid : String),
      MockDB.LedgerInv (MockDB.resultState (MockDB.requestWithdraw m uid amount network fid))) ∧
    (∀ (txId : String) (approved : Bool) (tx : Transaction),
      m.transactions.find? (fun t => t.id == txId) = some tx →
      tx.type = TxType.WITHDRAW → tx.status = TxStatus.PENDING →
      MockDB.LedgerInv (MockDB.resultState (MockDB.processWithdrawal m txId approved))) ∧
    (∀ (postId : String) (amount : ℚ) (fid : String),
      MockDB.LedgerInv (MockDB.resultState (MockDB.sponsorPost m postId amount fid))) := by
  refine ⟨?_, ?_, ?_, ?_⟩
  · intro uid amount network fid hash
    cases hfind : m.users.find? (fun v => v.id == uid) with
    | none => simpa only [MockDB.deposit, hfind, MockDB.resultState] using hInv
    | some u =>
      have hδ : MockDB.txNet uid
          { id := fid, userId := uid, type := TxType.DEPOSIT, amount := amount,
            status := TxStatus.COMPLETED, network := network, txHash := some hash } =
          amount := by
        simp [MockDB.txNet, MockDB.isCompletedDeposit, MockDB.isCompletedWithdraw,
          MockDB.isAdSpend, MockDB.isPendingWithdraw]
      have hother : ∀ uid', uid' ≠ uid → MockDB.txNet uid'
          { id := fid, userId := uid, type := TxType.DEPOSIT, amount := amount,
            status := TxStatus.COMPLETED, network := network, txHash := some hash } = 0 :=
        fun uid' hne => txNet_of_ne (Ne.symm hne)
      have hstep := LedgerInv_step m hInv uid u amount
        { id := fid, userId := uid, type := TxType.DEPOSIT, amount := amount,
          status := TxStatus.COMPLETED, network := network, txHash := some hash }
        hfind hδ hother m.posts
      simpa only [MockDB.deposit, hfind, MockDB.resultState] using hstep
  · intro uid amount network fid
    cases hfind : m.users.find? (fun v => v.id == uid) with
    | none => simpa only [MockDB.requestWithdraw, hfind, MockDB.resultState] using hInv
    | some u =>
      by_cases h1 : u.balance < amount
      · simp only [MockDB.requestWithdraw, hfind, if_pos h1]
        simpa only [MockDB.resultState] using hInv
      · by_cases h2 : amount < m.settings.minWithdraw
        · simp only [MockDB.requestWithdraw, hfind, if_neg h1, if_pos h2]
          simpa only [MockDB.resultState] using hInv
        · have hδ : MockDB.txNet uid
              { id := fid, userId := uid, type := TxType.WITHDRAW, amount := amount,
                status := TxStatus.PENDING, network := network } = -amount := by
            simp [MockDB.txNet, MockDB.isCompletedDeposit, MockDB.isCompletedWithdraw,
              MockDB.isAdSpend, MockDB.isPendingWithdraw]
          have hother : ∀ uid', uid' ≠ uid → MockDB.txNet uid'
              { id := fid, userId := uid, type := TxType.WITHDRAW, amount := amount,
                status := TxStatus.PENDING, network := network } = 0 :=
            fun uid' hne => txNet_of_ne (Ne.symm hne)
          have hstep := LedgerInv_step m hInv uid u (-amount)
            { id := fid, userId := uid, type := TxType.WITHDRAW, amount := amount,
              status := TxStatus.PENDING, network := network }
            hfind hδ hother m.posts
          simp only [MockDB.requestWithdraw, hfind, if_neg h1, if_neg h2,
            MockDB.resultState]
          simpa only [sub_eq_add_neg] using hstep
  · intro txId approved tx hfindtx htype hstatus
    cases approved with
    | true =>
      simp only [MockDB.processWithdrawal, hfindtx, if_true, MockDB.resultState]
      intro uid' u' hfind'
      have hnet := netLedger_updateFirst
        { m with
          transactions := updateFirst (fun t => t.id == txId)
            (fun t => { t with status := TxStatus.COMPLETED }) m.transactions }
        hfindtx rfl uid'
      have hΔ : MockDB.txNet uid' ({ tx with status := TxStatus.COMPLETED }) =
          MockDB.txNet uid' tx := by
        by_cases ht : tx.userId = uid'
        · simp [MockDB.txNet, MockDB.isCompletedDeposit, MockDB.isCompletedWithdraw,
            MockDB.isAdSpend, MockDB.isPendingWithdraw, htype, hstatus, ht]
        · rw [txNet_of_ne ht]
          exact txNet_of_ne ht
      rw [hnet, hΔ, sub_self, add_zero]
      exact hInv uid' u' hfind'
    | false =>
      cases hfu : m.users.find? (fun v => v.id == tx.userId) with
      | none =>
        simp only [MockDB.processWithdrawal, hfindtx, MockDB.resultState]
        simp only [Bool.false_eq_true, if_false]
        simp only [hfu]
        intro uid' u' hfind'
        have hnet := netLedger_updateFirst
          { m with
            transactions := updateFirst (fun t => t.id == txId)
              (fun t => { t with status := TxStatus.REJECTED }) m.transactions }
          hfindtx rfl uid'
        by_cases huid : uid' = tx.userId
        · subst huid
          rw [hfu] at hfind'
          cases hfind'
        · have h0 : MockDB.txNet uid' tx = 0 := txNet_of_ne (Ne.symm huid)
          have h0' : MockDB.txNet uid' ({ tx with status := TxStatus.REJECTED }) = 0 :=
            txNet_of_ne (Ne.symm huid)
          rw [hnet, h0, h0', sub_self, add_zero]
          exact hInv uid' u' hfind'
      | some w =>
        simp only [MockDB.processWithdrawal, hfindtx, MockDB.resultState]
        simp only [Bool.false_eq_true, if_false]
        simp only [hfu]
        intro uid' u' hfind'
        have hpw : (w.id == tx.userId) = true := by simpa using List.find?_some hfu
        have hnet := netLedger_updateFirst
          { m with
            transactions := updateFirst (fun t => t.id == txId)
              (fun t => { t with status := TxStatus.REJECTED }) m.transactions }
          hfindtx rfl uid'
        by_cases huid : uid' = tx.userId
        · subst huid
          rw [find?_updateFirst_self hfu (by simpa using hpw)] at hfind'
          injection hfind' with hfind'
          subst hfind'
          show w.balance + tx.amount = _
          have hrej : MockDB.txNet tx.userId ({ tx with status := TxStatus.REJECTED }) = 0 := by
            simp [MockDB.txNet, MockDB.isCompletedDeposit, MockDB.isCompletedWithdraw,
              MockDB.isAdSpend, MockDB.isPendingWithdraw, htype, hstatus]
          have hold : MockDB.txNet tx.userId tx = -tx.amount := by
            simp [MockDB.txNet, MockDB.isCompletedDeposit, MockDB.isCompletedWithdraw,
              MockDB.isAdSpend, MockDB.isPendingWithdraw, htype, hstatus]
          have hbal2 : MockDB.netLedger
              { m with
                transactions := updateFirst (fun t => t.id == txId)
                  (fun t => { t with status := TxStatus.REJECTED }) m.transactions }
              tx.userId = MockDB.netLedger m tx.userId + tx.amount := by
            rw [hnet, hrej, hold]
            ring
          have hInvw := hInv tx.userId w hfu
          show _ = MockDB.netLedger _ tx.userId
          calc w.balance + tx.amount
              = MockDB.netLedger m tx.userId + tx.amount := by rw [hInvw]
            _ = _ := by
                  rw [← hbal2]
                  simp [MockDB.netLedger, MockDB.netCompleted]
        · rw [find?_updateFirst_disjoint
            (fun x hx => by
              simp only [beq_iff_eq] at hx ⊢
              simp [hx, Ne.symm huid])
            (fun x hx => by
              simp only [beq_iff_eq] at hx ⊢
              simp [hx, Ne.symm huid])
            m.users] at hfind'
          have h0 : MockDB.txNet uid' tx = 0 := txNet_of_ne (Ne.symm huid)
          have h0' : MockDB.txNet uid' ({ tx with status := TxStatus.REJECTED }) = 0 :=
            txNet_of_ne (Ne.symm huid)
          have hbal := hInv uid' u' hfind'
          show _ = MockDB.netLedger _ uid'
          calc u'.balance = MockDB.netLedger m uid' := hbal
            _ = _ := by
                  have := hnet
                  rw [h0, h0', sub_self, add_zero] at this
                  rw [← this]
                  simp [MockDB.netLedger, MockDB.netCompleted]
  · intro postId amount fid
    cases hpost : m.posts.find? (fun p => p.id == postId) with
    | none => simpa only [MockDB.sponsorPost, hpost, MockDB.resultState] using hInv
    | some post =>
      cases hfu : m.users.find? (fun v => v.id == post.userId) with
      | none => simpa only [MockDB.sponsorPost, hpost, hfu, MockDB.resultState] using hInv
      | some user =>
        by_cases hbal : user.balance < amount
        · simp only [MockDB.sponsorPost, hpost, hfu, if_pos hbal]
          simpa only [MockDB.resultState] using hInv
        · have huid : user.id = post.userId := by simpa using List.find?_some hfu
          have hδ : MockDB.txNet post.userId
              { id := fid, userId := user.id, type := TxType.AD_SPEND, amount := amount,
                status := TxStatus.COMPLETED, postId := some postId } = -amount := by
            simp [MockDB.txNet, MockDB.isCompletedDeposit, MockDB.isCompletedWithdraw,
              MockDB.isAdSpend, MockDB.isPendingWithdraw, huid]
          have hother : ∀ uid', uid' ≠ post.userId → MockDB.txNet uid'
              { id := fid, userId := user.id, type := TxType.AD_SPEND, amount := amount,
                status := TxStatus.COMPLETED, postId := some postId } = 0 :=
            fun uid' hne => txNet_of_ne (by
              show user.id ≠ uid'
              rw [huid]
              exact Ne.symm hne)
          have hstep := LedgerInv_step m hInv post.userId user (-amount)
            { id := fid, userId := user.id, type := TxType.AD_SPEND, amount := amount,
              status := TxStatus.COMPLETED, postId := some postId }
            hfu hδ hother
            (updateFirst (fun p => p.id == postId)
              (fun p =>
                { p with
                  sponsored := true,
                  views := p.views + MockDB.sponsorBoost m.settings amount }) m.posts)
          simp only [MockDB.sponsorPost, hpost, hfu, if_neg hbal, MockDB.resultState]
          simpa only [sub_eq_add_neg] using hstep

theorem txType_beq (a b : TxType) : (a == b) = decide (a = b) := rfl

theorem txStatus_beq (a b : TxStatus) : (a == b) = decide (a = b) := rfl

/-- Counterexample to claim C6 as stated: starting from a store whose
only account has balance 0 and no transactions — which satisfies the
stated equality — a deposit of 100 followed by a withdrawal request of
50 yields a reachable state whose balance (50) differs from its net of
completed deposits minus completed withdrawals minus ad-spend (100),
because the withdrawal is still PENDING while its funds are already
debited. -/
theorem C6_counterexample :
    MockDB.deposit MockDB.exLedger0 "u1" 100 none "t1" "h1" = Except.ok MockDB.exLedger1 ∧
    MockDB.requestWithdraw MockDB.exLedger1 "u1" 50 none "t2" = Except.ok MockDB.exLedger2 ∧
    MockDB.balanceOf MockDB.exLedger0 "u1" =
      some (MockDB.netCompleted MockDB.exLedger0 "u1") ∧
    MockDB.balanceOf MockDB.exLedger2 "u1" = some 50 ∧
    MockDB.netCompleted MockDB.exLedger2 "u1" = 100 ∧
    MockDB.balanceOf MockDB.exLedger2 "u1" ≠
      some (MockDB.netCompleted MockDB.exLedger2 "u1") := by
  refine ⟨?_, ?_, ?_, ?_, ?_, ?_⟩
  · norm_num [MockDB.deposit, MockDB.exLedger0, MockDB.exLedger1, List.find?, updateFirst]
  · norm_num [MockDB.requestWithdraw, MockDB.exLedger1, MockDB.exLedger2, List.find?,
      updateFirst]
  · norm_num [MockDB.balanceOf, MockDB.netCompleted, MockDB.sumFilterAmount,
      MockDB.exLedger0, List.find?]
  · norm_num [MockDB.balanceOf, MockDB.exLedger2, List.find?]
  · simp [MockDB.netCompleted, MockDB.sumFilterAmount, MockDB.exLedger2,
      MockDB.isCompletedDeposit, MockDB.isCompletedWithdraw, MockDB.isAdSpend,
      txType_beq, txStatus_beq, List.filter]
  · simp [MockDB.balanceOf, MockDB.netCompleted, MockDB.sumFilterAmount,
      MockDB.exLedger2, MockDB.isCompletedDeposit, MockDB.isCompletedWithdraw,
      MockDB.isAdSpend, txType_beq, txStatus_beq, List.filter, List.find?]

/-- Witness for the amended C6 at the concrete store `exLedger2` (which
satisfies the pending-aware equality: 50 = 100 − 50): a further deposit
and the settlement of the pending withdrawal t2 both preserve it. -/
theorem C6_ledger_invariant_preserved_witness :
    MockDB.LedgerInv MockDB.exLedger2 ∧
    MockDB.LedgerInv
      (MockDB.resultState (MockDB.deposit MockDB.exLedger2 "u1" 7 none "t3" "h3")) ∧
    MockDB.LedgerInv
      (MockDB.resultState (MockDB.processWithdrawal MockDB.exLedger2 "t2" false)) := by
  have hnet : MockDB.netLedger MockDB.exLedger2 "u1" = 50 := by
    simp [MockDB.netLedger, MockDB.netCompleted, MockDB.sumFilterAmount,
      MockDB.exLedger2, MockDB.isCompletedDeposit, MockDB.isCompletedWithdraw,
      MockDB.isAdSpend, MockDB.isPendingWithdraw, txType_beq, txStatus_beq,
      List.filter]
    norm_num
  have hInv : MockDB.LedgerInv MockDB.exLedger2 := by
    intro uid u hfind
    by_cases h : "u1" = uid
    · subst h
      simp only [MockDB.exLedger2, List.find?] at hfind
      simp only [show (("u1" : String) == "u1") = true from by simp] at hfind
      injection hfind with hfind
      rw [← hfind, hnet]
    · simp only [MockDB.exLedger2, List.find?] at hfind
      rw [show (("u1" : String) == uid) = false from by simp [h]] at hfind
      cases hfind
  exact ⟨hInv,
    (C6_ledger_invariant_preserved MockDB.exLedger2 hInv).1 "u1" 7 none "t3" "h3",
    (C6_ledger_invariant_preserved MockDB.exLedger2 hInv).2.2.1 "t2" false
      { id := "t2", userId := "u1", type := TxType.WITHDRAW, amount := 50,
        status := TxStatus.PENDING }
      (by decide) rfl rfl⟩

end Textflow
